import Mathlib

/-!
Verification of the reserve-study funding core (`reserve_math.py`):
component-state normalization, the year-by-year full-horizon simulation,
and the levelized-contribution solver (bracket expansion + bisection).

Python floats are modelled as exact rationals (`ℚ`), Python ints as `ℤ`,
and raised exceptions as `Except PyErr`.  Dict fields that may be absent
are modelled as `Option` of a Python value.
-/

/-- A Python value stored in a component dict field: either a numeric value
(int or float, modelled as `ℚ`) or a non-numeric value (e.g. a string or
`None`), for which we record only its truthiness. -/
inductive PyVal where
  | num (q : ℚ)
  | nonnum (truthy : Bool)
  deriving DecidableEq

/-- A dict field: present with a value, or absent. -/
abbrev PyField := Option PyVal

/-- Python exceptions the normalizer can raise.  `keyError` is a missing
dict key (`c["..."]`), `valueError` a failed numeric conversion
(`ValueError`/`TypeError` from `int()`/`float()`).  The constructor
`invalidComponentError` stands for the exception class named by the spec;
no such class exists anywhere in the repository, so the code never
produces it. -/
inductive PyErr where
  | keyError
  | valueError
  | invalidComponentError
  deriving DecidableEq

/-- A component input dict, as consumed by `_build_component_state`. -/
structure CompInput where
  name : PyField
  quantity : PyField
  useful_life_years : PyField
  remaining_life_years : PyField
  cycle_years : PyField
  current_replacement_cost : PyField
  deriving DecidableEq

/-- Normalized per-component simulation state (the dict built at
`reserve_math.py` lines 25-33). -/
structure CompState where
  name : PyVal
  qty : ℤ
  cycle : ℤ
  age : ℤ
  cost_today : ℚ
  deriving DecidableEq

/-- One yearly result row (`reserve_math.py` lines 101-113). -/
structure YearRow where
  year : ℤ
  starting_balance : ℚ
  recommended_contribution : ℚ
  contributions : ℚ
  expenses : ℚ
  interest_earned : ℚ
  ending_balance : ℚ
  fully_funded_balance : ℚ
  percent_funded : ℚ
  deriving DecidableEq

/-- The `1e-9` comparison tolerance of the constraint checks. -/
def tol : ℚ := 1 / 1000000000

/-- Python truthiness of a stored value (`0`, `0.0` are falsy). -/
def pyTruthy : PyVal → Bool
  | .num q => decide (q ≠ 0)
  | .nonnum t => t

/-- Python `x or y` on an optional value (`None` and falsy values fall
through to `y`). -/
def pyOr (x : Option PyVal) (y : PyVal) : PyVal :=
  match x with
  | none => y
  | some v => if pyTruthy v then v else y

/-- Python `int()` truncation toward zero of a rational. -/
def pyTrunc (q : ℚ) : ℤ := q.num.tdiv (q.den : ℤ)

/-- Python `int(v)`: numeric values truncate, non-numeric values raise. -/
def pyIntOf : PyVal → Except PyErr ℤ
  | .num q => .ok (pyTrunc q)
  | .nonnum _ => .error .valueError

/-- Python `float(v)`: numeric values pass through, non-numeric raise. -/
def pyFloatOf : PyVal → Except PyErr ℚ
  | .num q => .ok q
  | .nonnum _ => .error .valueError

/-- Python `c["k"]`: raises `KeyError` when the key is absent. -/
def pyGet (f : PyField) : Except PyErr PyVal :=
  match f with
  | none => .error .keyError
  | some v => .ok v

/-- Normalize one component (the loop body of `_build_component_state`,
`reserve_math.py` lines 11-33).  Field accesses and conversions happen in
source order: `quantity`, `useful_life_years`, `remaining_life_years`,
`cycle_years`, `current_replacement_cost`, then `name`. -/
def buildOne (c : CompInput) : Except PyErr CompState := do
  -- qty = int(c.get("quantity", 1) or 1)
  let qty ← pyIntOf (pyOr (some (c.quantity.getD (.num 1))) (.num 1))
  -- ul = int(c["useful_life_years"])
  let ul ← pyIntOf (← pyGet c.useful_life_years)
  -- rl = int(c["remaining_life_years"])
  let rl ← pyIntOf (← pyGet c.remaining_life_years)
  -- cyc = int(c.get("cycle_years") or ul)
  let cyc ← pyIntOf (pyOr c.cycle_years (.num (ul : ℚ)))
  -- cost = float(c["current_replacement_cost"])
  let cost ← pyFloatOf (← pyGet c.current_replacement_cost)
  -- ul = max(1, ul)  (performed by the source; ul is not used afterwards)
  let _ul1 := max 1 ul
  let cyc1 := max 1 cyc
  let rl1 := max 0 rl
  -- age = max(0, min(cyc, cyc - rl))
  let age := max 0 (min cyc1 (cyc1 - rl1))
  let nm ← pyGet c.name
  .ok { name := nm, qty := max 1 qty, cycle := cyc1, age := age, cost_today := cost }

/-- `_build_component_state` (`reserve_math.py` lines 6-34): normalize a
list of component dicts in order; the first exception aborts the whole
call. -/
def _build_component_state : List CompInput → Except PyErr (List CompState)
  | [] => .ok []
  | c :: cs => do
    let s ← buildOne c
    let rest ← _build_component_state cs
    .ok (s :: rest)

/-- Fully funded balance for one year (`reserve_math.py` lines 69-72):
`ffb = Σ qty * cost_today * infl * clamp(age / cycle, 0, 1)`. -/
def ffbOf (infl : ℚ) (st : List CompState) : ℚ :=
  st.foldl (fun acc c =>
    acc + ((c.qty : ℚ) * c.cost_today * infl) * max 0 (min 1 ((c.age : ℚ) / (c.cycle : ℚ)))) 0

/-- Total replacement expense for one year (`reserve_math.py` lines 78-82):
components whose `age >= cycle` are replaced at inflated cost. -/
def dueExpense (infl : ℚ) (st : List CompState) : ℚ :=
  st.foldl (fun acc c =>
    if c.cycle ≤ c.age then acc + (c.qty : ℚ) * c.cost_today * infl else acc) 0

/-- Age reset on replacement (`reserve_math.py` line 84): any component
with `age >= cycle` has its age set back to 0 this year. -/
def resetDue (st : List CompState) : List CompState :=
  st.map (fun c => if c.cycle ≤ c.age then { c with age := 0 } else c)

/-- End-of-year universal age advance (`reserve_math.py` lines 116-117). -/
def advanceAges (st : List CompState) : List CompState :=
  st.map (fun c => { c with age := c.age + 1 })

/-- Component-state evolution of one simulated year: replacement resets,
then the universal age advance. -/
def stepStates (st : List CompState) : List CompState :=
  advanceAges (resetDue st)

/-- The yearly result row produced by one loop iteration of `_simulate`
(`reserve_math.py` lines 61-113), for elapsed-year index `i`. -/
def yearRow (start_year : ℤ) (inflation_rate interest_rate annual_contribution : ℚ)
    (i : ℕ) (bal : ℚ) (st : List CompState) : YearRow :=
  let infl := (1 + inflation_rate) ^ i
  let ffb := ffbOf infl st
  let interest := bal * interest_rate
  let expenses := dueExpense infl st
  let contrib := annual_contribution
  let end_bal := bal + contrib + interest - expenses
  { year := start_year + (i : ℤ)
    starting_balance := bal
    recommended_contribution := annual_contribution
    contributions := contrib
    expenses := expenses
    interest_earned := interest
    ending_balance := end_bal
    fully_funded_balance := ffb
    percent_funded := if 0 < ffb then max 0 (end_bal / ffb) else 0 }

/-- The pass check of one year (`reserve_math.py` lines 89-95): `ok` is
false when the ending balance is below `min_balance` or below the fully
funded balance, each with tolerance `1e-9`. -/
def yearOk (min_balance : ℚ) (r : YearRow) : Bool :=
  !decide (r.ending_balance < min_balance - tol) &&
    !decide (r.ending_balance < r.fully_funded_balance - tol)

/-- The horizon loop of `_simulate` (`reserve_math.py` lines 61-124):
`n` years remain, `i` is the elapsed-year index (inflation basis), `bal`
the running balance, `st` the mutable component states.  On a failing
year the loop returns `false` with the rows produced so far (including
the failing row); otherwise it recurses on the advanced state. -/
def simGo (start_year : ℤ) (inflation_rate interest_rate annual_contribution min_balance : ℚ) :
    ℕ → ℕ → ℚ → List CompState → Bool × List YearRow
  | 0, _, _, _ => (true, [])
  | Nat.succ m, i, bal, st =>
    let row := yearRow start_year inflation_rate interest_rate annual_contribution i bal st
    let st2 := stepStates st
    if yearOk min_balance row then
      let r := simGo start_year inflation_rate interest_rate annual_contribution min_balance
        m (i + 1) row.ending_balance st2
      (r.1, row :: r.2)
    else
      (false, [row])

/-- `_simulate` (`reserve_math.py` lines 37-124): normalize the
components, then run the horizon loop from `starting_balance`. -/
def _simulate (start_year : ℤ) (horizon_years : ℕ)
    (inflation_rate interest_rate starting_balance annual_contribution : ℚ)
    (components : List CompInput) (min_balance : ℚ) :
    Except PyErr (Bool × List YearRow) :=
  (_build_component_state components).map (fun st =>
    simGo start_year inflation_rate interest_rate annual_contribution min_balance
      horizon_years 0 starting_balance st)

/-- The heuristic search ceiling base (`reserve_math.py` line 149):
`sum(float(c["current_replacement_cost"]) * int(c.get("quantity", 1) or 1))`. -/
def baseTotal (components : List CompInput) : Except PyErr ℚ :=
  components.foldlM (fun acc c => do
    let cost ← pyFloatOf (← pyGet c.current_replacement_cost)
    let q ← pyIntOf (pyOr (some (c.quantity.getD (.num 1))) (.num 1))
    .ok (acc + cost * (q : ℚ))) 0

/-- Round-half-to-even on a rational (the semantics of Python `round`). -/
def roundHalfEven (x : ℚ) : ℤ :=
  let n := ⌊x⌋
  let frac := x - (n : ℚ)
  if frac < 1 / 2 then n
  else if 1 / 2 < frac then n + 1
  else if n % 2 = 0 then n else n + 1

/-- Python `round(x, 2)`: round to cents (`reserve_math.py` line 193). -/
def round2 (x : ℚ) : ℚ := (roundHalfEven (x * 100) : ℚ) / 100

/-- The bracket-expansion loop (`reserve_math.py` lines 153-167): up to
`k` attempts, simulate at `hi`; stop on the first pass, otherwise double
`hi`.  The trace records every `hi` actually simulated with its verdict. -/
def expandHi (sim : ℚ → Except PyErr (Bool × List YearRow)) :
    ℕ → ℚ → List (ℚ × Bool) → Except PyErr (ℚ × List (ℚ × Bool))
  | 0, hi, tr => .ok (hi, tr)
  | Nat.succ k, hi, tr => do
    let r ← sim hi
    if r.1 then .ok (hi, tr ++ [(hi, true)])
    else expandHi sim k (hi * 2) (tr ++ [(hi, false)])

/-- The loop state of the bisection (`lo`, `hi`, the best feasible
candidate found so far with its rows, and the ghost trace of simulated
midpoints with their verdicts). -/
structure BisState where
  lo : ℚ
  hi : ℚ
  best : ℚ
  bestRows : List YearRow
  tr : List (ℚ × Bool)
  deriving DecidableEq

/-- The bisection loop (`reserve_math.py` lines 170-190): `n` iterations;
a passing midpoint becomes the new `hi` and the recorded best (with its
rows), a failing midpoint becomes the new `lo`.  The trace records every
midpoint simulated with its verdict. -/
def bisectLoop (sim : ℚ → Except PyErr (Bool × List YearRow)) :
    ℕ → BisState → Except PyErr BisState
  | 0, s => .ok s
  | Nat.succ n, s => do
    let mid := (s.lo + s.hi) / 2
    let r ← sim mid
    if r.1 then bisectLoop sim n ⟨s.lo, mid, mid, r.2, s.tr ++ [(mid, true)]⟩
    else bisectLoop sim n ⟨mid, s.hi, s.best, s.bestRows, s.tr ++ [(mid, false)]⟩

/-- The full solver result, with the ghost traces of every simulation the
bracket expansion and the bisection actually ran. -/
structure RecResult where
  best : ℚ
  rows : List YearRow
  expTried : List (ℚ × Bool)
  bisTried : List (ℚ × Bool)
  deriving DecidableEq

/-- `recommend_levelized_full_funding_contribution`
(`reserve_math.py` lines 127-200), instrumented with the simulation
traces: compute the heuristic ceiling, expand it for up to 20 attempts,
bisect for 50 iterations from `lo = 0`, round the best candidate to
cents, and overwrite `recommended_contribution` in the retained rows. -/
def recommendFull (start_year : ℤ) (horizon_years : ℕ)
    (inflation_rate interest_rate starting_balance : ℚ)
    (components : List CompInput) (min_balance : ℚ) : Except PyErr RecResult := do
  let bt ← baseTotal components
  -- hi = max(5000.0, base_total); hi *= 2.0
  let hi0 := max 5000 bt * 2
  let sim := fun c => _simulate start_year horizon_years inflation_rate interest_rate
    starting_balance c components min_balance
  let (hi1, etr) ← expandHi sim 20 hi0 []
  let s ← bisectLoop sim 50 ⟨0, hi1, hi1, [], []⟩
  let best := round2 s.best
  let rows := s.bestRows.map (fun r => { r with recommended_contribution := best })
  .ok ⟨best, rows, etr, s.tr⟩

/-- The public solver entry point: the contribution and rows of
`recommendFull`, without the ghost traces. -/
def recommend_levelized_full_funding_contribution (start_year : ℤ) (horizon_years : ℕ)
    (inflation_rate interest_rate starting_balance : ℚ)
    (components : List CompInput) (min_balance : ℚ) : Except PyErr (ℚ × List YearRow) :=
  (recommendFull start_year horizon_years inflation_rate interest_rate starting_balance
    components min_balance).map (fun r => (r.best, r.rows))

/-- Projection of an `Except` result to its success value. -/
def okOf {α : Type} (e : Except PyErr α) : Option α :=
  match e with
  | .ok a => some a
  | .error _ => none

/-- The constraint satisfied by a non-failing row: its ending balance is
neither below `min_balance` nor below its own fully funded balance, each
checked with the `1e-9` tolerance. -/
def RowOk (min_balance : ℚ) (r : YearRow) : Prop :=
  ¬(r.ending_balance < min_balance - tol) ∧
    ¬(r.ending_balance < r.fully_funded_balance - tol)

instance (min_balance : ℚ) (r : YearRow) : Decidable (RowOk min_balance r) := by
  unfold RowOk; infer_instance

/-- A well-formed component input in the sense of the spec's data model:
all required fields present and numeric. -/
structure WFComp where
  name : PyVal
  quantity : Option ℚ
  useful_life_years : ℚ
  remaining_life_years : ℚ
  cycle_years : Option ℚ
  current_replacement_cost : ℚ
  deriving DecidableEq

/-- Embed a well-formed component as an input dict. -/
def toInput (w : WFComp) : CompInput :=
  { name := some w.name
    quantity := w.quantity.map .num
    useful_life_years := some (.num w.useful_life_years)
    remaining_life_years := some (.num w.remaining_life_years)
    cycle_years := w.cycle_years.map .num
    current_replacement_cost := some (.num w.current_replacement_cost) }

/-- What normalization computes on a well-formed component: `quantity`
defaults to 1 (also on a falsy 0), `cycle_years` defaults to the
truncated useful life (also on a falsy 0), `useful_life_years` and
`cycle_years` are floored at 1, `remaining_life_years` at 0, `quantity`
at 1, and the age is `clamp(cycle - remaining_life, 0, cycle)`. -/
def normWF (w : WFComp) : CompState :=
  let qty := pyTrunc (match w.quantity with
    | none => 1
    | some q => if q = 0 then 1 else q)
  let ul := pyTrunc w.useful_life_years
  let cyc0 := match w.cycle_years with
    | none => ul
    | some q => if q = 0 then ul else pyTrunc q
  let cyc := max 1 cyc0
  let rl := max 0 (pyTrunc w.remaining_life_years)
  { name := w.name
    qty := max 1 qty
    cycle := cyc
    age := max 0 (min cyc (cyc - rl))
    cost_today := w.current_replacement_cost }

/-- The verdict of one simulation call, read off the solver's view of its
result (`true` when the run passes the whole horizon). -/
def simVerdict (sim : ℚ → Except PyErr (Bool × List YearRow)) (c : ℚ) : Bool :=
  ((okOf (sim c)).getD (true, [])).1

/-- The rows of one simulation call. -/
def simRows (sim : ℚ → Except PyErr (Bool × List YearRow)) (c : ℚ) : List YearRow :=
  ((okOf (sim c)).getD (true, [])).2

/-! ### Concrete solver runs, evaluated one loop iteration at a time -/

/-- The single component of the spec's reference scenario. -/
def scenarioComp : CompInput :=
  { name := some (.nonnum true)
    quantity := some (.num 1)
    useful_life_years := some (.num 10)
    remaining_life_years := some (.num 5)
    cycle_years := some (.num 10)
    current_replacement_cost := some (.num 100000) }

/-- A cheap component used to exercise the non-convergent solver path
(together with an astronomically large `min_balance`). -/
def comp100 : CompInput :=
  { name := some (.nonnum true)
    quantity := none
    useful_life_years := some (.num 10)
    remaining_life_years := some (.num 10)
    cycle_years := none
    current_replacement_cost := some (.num 100) }

/-- The simulation of the reference scenario as the solver invokes it. -/
def simA : ℚ → Except PyErr (Bool × List YearRow) :=
  fun c => _simulate 2024 10 0 0 0 c [scenarioComp] 0

/-- The simulation of the non-convergent run as the solver invokes it. -/
def simB : ℚ → Except PyErr (Bool × List YearRow) :=
  fun c => _simulate 2024 1 0 0 0 c [comp100] 1000000000000000

def sA0 : BisState := ⟨0, 200000, 200000, [], []⟩

def trA1 : List (ℚ × Bool) := ([] : List (ℚ × Bool)) ++ [(100000, true)]

def sA1 : BisState := ⟨0, 100000, 100000, simRows simA 100000, trA1⟩

def trA2 : List (ℚ × Bool) := trA1 ++ [(50000, true)]

def sA2 : BisState := ⟨0, 50000, 50000, simRows simA 50000, trA2⟩

def trA3 : List (ℚ × Bool) := trA2 ++ [(25000, false)]

def sA3 : BisState := ⟨25000, 50000, 50000, simRows simA 50000, trA3⟩

def trA4 : List (ℚ × Bool) := trA3 ++ [(37500, false)]

def sA4 : BisState := ⟨37500, 50000, 50000, simRows simA 50000, trA4⟩

def trA5 : List (ℚ × Bool) := trA4 ++ [(43750, false)]

def sA5 : BisState := ⟨43750, 50000, 50000, simRows simA 50000, trA5⟩

def trA6 : List (ℚ × Bool) := trA5 ++ [(46875, false)]

def sA6 : BisState := ⟨46875, 50000, 50000, simRows simA 50000, trA6⟩

def trA7 : List (ℚ × Bool) := trA6 ++ [((96875 / 2 : ℚ), false)]

def sA7 : BisState := ⟨(96875 / 2 : ℚ), 50000, 50000, simRows simA 50000, trA7⟩

def trA8 : List (ℚ × Bool) := trA7 ++ [((196875 / 4 : ℚ), false)]

def sA8 : BisState := ⟨(196875 / 4 : ℚ), 50000, 50000, simRows simA 50000, trA8⟩

def trA9 : List (ℚ × Bool) := trA8 ++ [((396875 / 8 : ℚ), false)]

def sA9 : BisState := ⟨(396875 / 8 : ℚ), 50000, 50000, simRows simA 50000, trA9⟩

def trA10 : List (ℚ × Bool) := trA9 ++ [((796875 / 16 : ℚ), false)]

def sA10 : BisState := ⟨(796875 / 16 : ℚ), 50000, 50000, simRows simA 50000, trA10⟩

def trA11 : List (ℚ × Bool) := trA10 ++ [((1596875 / 32 : ℚ), false)]

def sA11 : BisState := ⟨(1596875 / 32 : ℚ), 50000, 50000, simRows simA 50000, trA11⟩

def trA12 : List (ℚ × Bool) := trA11 ++ [((3196875 / 64 : ℚ), false)]

def sA12 : BisState := ⟨(3196875 / 64 : ℚ), 50000, 50000, simRows simA 50000, trA12⟩

def trA13 : List (ℚ × Bool) := trA12 ++ [((6396875 / 128 : ℚ), false)]

def sA13 : BisState := ⟨(6396875 / 128 : ℚ), 50000, 50000, simRows simA 50000, trA13⟩

def trA14 : List (ℚ × Bool) := trA13 ++ [((12796875 / 256 : ℚ), false)]

def sA14 : BisState := ⟨(12796875 / 256 : ℚ), 50000, 50000, simRows simA 50000, trA14⟩

def trA15 : List (ℚ × Bool) := trA14 ++ [((25596875 / 512 : ℚ), false)]

def sA15 : BisState := ⟨(25596875 / 512 : ℚ), 50000, 50000, simRows simA 50000, trA15⟩

def trA16 : List (ℚ × Bool) := trA15 ++ [((51196875 / 1024 : ℚ), false)]

def sA16 : BisState := ⟨(51196875 / 1024 : ℚ), 50000, 50000, simRows simA 50000, trA16⟩

def trA17 : List (ℚ × Bool) := trA16 ++ [((102396875 / 2048 : ℚ), false)]

def sA17 : BisState := ⟨(102396875 / 2048 : ℚ), 50000, 50000, simRows simA 50000, trA17⟩

def trA18 : List (ℚ × Bool) := trA17 ++ [((204796875 / 4096 : ℚ), false)]

def sA18 : BisState := ⟨(204796875 / 4096 : ℚ), 50000, 50000, simRows simA 50000, trA18⟩

def trA19 : List (ℚ × Bool) := trA18 ++ [((409596875 / 8192 : ℚ), false)]

def sA19 : BisState := ⟨(409596875 / 8192 : ℚ), 50000, 50000, simRows simA 50000, trA19⟩

def trA20 : List (ℚ × Bool) := trA19 ++ [((819196875 / 16384 : ℚ), false)]

def sA20 : BisState := ⟨(819196875 / 16384 : ℚ), 50000, 50000, simRows simA 50000, trA20⟩

def trA21 : List (ℚ × Bool) := trA20 ++ [((1638396875 / 32768 : ℚ), false)]

def sA21 : BisState := ⟨(1638396875 / 32768 : ℚ), 50000, 50000, simRows simA 50000, trA21⟩

def trA22 : List (ℚ × Bool) := trA21 ++ [((3276796875 / 65536 : ℚ), false)]

def sA22 : BisState := ⟨(3276796875 / 65536 : ℚ), 50000, 50000, simRows simA 50000, trA22⟩

def trA23 : List (ℚ × Bool) := trA22 ++ [((6553596875 / 131072 : ℚ), false)]

def sA23 : BisState := ⟨(6553596875 / 131072 : ℚ), 50000, 50000, simRows simA 50000, trA23⟩

def trA24 : List (ℚ × Bool) := trA23 ++ [((13107196875 / 262144 : ℚ), false)]

def sA24 : BisState := ⟨(13107196875 / 262144 : ℚ), 50000, 50000, simRows simA 50000, trA24⟩

def trA25 : List (ℚ × Bool) := trA24 ++ [((26214396875 / 524288 : ℚ), false)]

def sA25 : BisState := ⟨(26214396875 / 524288 : ℚ), 50000, 50000, simRows simA 50000, trA25⟩

def trA26 : List (ℚ × Bool) := trA25 ++ [((52428796875 / 1048576 : ℚ), false)]

def sA26 : BisState := ⟨(52428796875 / 1048576 : ℚ), 50000, 50000, simRows simA 50000, trA26⟩

def trA27 : List (ℚ × Bool) := trA26 ++ [((104857596875 / 2097152 : ℚ), false)]

def sA27 : BisState := ⟨(104857596875 / 2097152 : ℚ), 50000, 50000, simRows simA 50000, trA27⟩

def trA28 : List (ℚ × Bool) := trA27 ++ [((209715196875 / 4194304 : ℚ), false)]

def sA28 : BisState := ⟨(209715196875 / 4194304 : ℚ), 50000, 50000, simRows simA 50000, trA28⟩

def trA29 : List (ℚ × Bool) := trA28 ++ [((419430396875 / 8388608 : ℚ), false)]

def sA29 : BisState := ⟨(419430396875 / 8388608 : ℚ), 50000, 50000, simRows simA 50000, trA29⟩

def trA30 : List (ℚ × Bool) := trA29 ++ [((838860796875 / 16777216 : ℚ), false)]

def sA30 : BisState := ⟨(838860796875 / 16777216 : ℚ), 50000, 50000, simRows simA 50000, trA30⟩

def trA31 : List (ℚ × Bool) := trA30 ++ [((1677721596875 / 33554432 : ℚ), false)]

def sA31 : BisState := ⟨(1677721596875 / 33554432 : ℚ), 50000, 50000, simRows simA 50000, trA31⟩

def trA32 : List (ℚ × Bool) := trA31 ++ [((3355443196875 / 67108864 : ℚ), false)]

def sA32 : BisState := ⟨(3355443196875 / 67108864 : ℚ), 50000, 50000, simRows simA 50000, trA32⟩

def trA33 : List (ℚ × Bool) := trA32 ++ [((6710886396875 / 134217728 : ℚ), false)]

def sA33 : BisState := ⟨(6710886396875 / 134217728 : ℚ), 50000, 50000, simRows simA 50000, trA33⟩

def trA34 : List (ℚ × Bool) := trA33 ++ [((13421772796875 / 268435456 : ℚ), false)]

def sA34 : BisState := ⟨(13421772796875 / 268435456 : ℚ), 50000, 50000, simRows simA 50000, trA34⟩

def trA35 : List (ℚ × Bool) := trA34 ++ [((26843545596875 / 536870912 : ℚ), false)]

def sA35 : BisState := ⟨(26843545596875 / 536870912 : ℚ), 50000, 50000, simRows simA 50000, trA35⟩

def trA36 : List (ℚ × Bool) := trA35 ++ [((53687091196875 / 1073741824 : ℚ), false)]

def sA36 : BisState := ⟨(53687091196875 / 1073741824 : ℚ), 50000, 50000, simRows simA 50000, trA36⟩

def trA37 : List (ℚ × Bool) := trA36 ++ [((107374182396875 / 2147483648 : ℚ), false)]

def sA37 : BisState := ⟨(107374182396875 / 2147483648 : ℚ), 50000, 50000, simRows simA 50000, trA37⟩

def trA38 : List (ℚ × Bool) := trA37 ++ [((214748364796875 / 4294967296 : ℚ), false)]

def sA38 : BisState := ⟨(214748364796875 / 4294967296 : ℚ), 50000, 50000, simRows simA 50000, trA38⟩

def trA39 : List (ℚ × Bool) := trA38 ++ [((429496729596875 / 8589934592 : ℚ), false)]

def sA39 : BisState := ⟨(429496729596875 / 8589934592 : ℚ), 50000, 50000, simRows simA 50000, trA39⟩

def trA40 : List (ℚ × Bool) := trA39 ++ [((858993459196875 / 17179869184 : ℚ), false)]

def sA40 : BisState := ⟨(858993459196875 / 17179869184 : ℚ), 50000, 50000, simRows simA 50000, trA40⟩

def trA41 : List (ℚ × Bool) := trA40 ++ [((1717986918396875 / 34359738368 : ℚ), false)]

def sA41 : BisState := ⟨(1717986918396875 / 34359738368 : ℚ), 50000, 50000, simRows simA 50000, trA41⟩

def trA42 : List (ℚ × Bool) := trA41 ++ [((3435973836796875 / 68719476736 : ℚ), false)]

def sA42 : BisState := ⟨(3435973836796875 / 68719476736 : ℚ), 50000, 50000, simRows simA 50000, trA42⟩

def trA43 : List (ℚ × Bool) := trA42 ++ [((6871947673596875 / 137438953472 : ℚ), false)]

def sA43 : BisState := ⟨(6871947673596875 / 137438953472 : ℚ), 50000, 50000, simRows simA 50000, trA43⟩

def trA44 : List (ℚ × Bool) := trA43 ++ [((13743895347196875 / 274877906944 : ℚ), false)]

def sA44 : BisState := ⟨(13743895347196875 / 274877906944 : ℚ), 50000, 50000, simRows simA 50000, trA44⟩

def trA45 : List (ℚ × Bool) := trA44 ++ [((27487790694396875 / 549755813888 : ℚ), false)]

def sA45 : BisState := ⟨(27487790694396875 / 549755813888 : ℚ), 50000, 50000, simRows simA 50000, trA45⟩

def trA46 : List (ℚ × Bool) := trA45 ++ [((54975581388796875 / 1099511627776 : ℚ), false)]

def sA46 : BisState := ⟨(54975581388796875 / 1099511627776 : ℚ), 50000, 50000, simRows simA 50000, trA46⟩

def trA47 : List (ℚ × Bool) := trA46 ++ [((109951162777596875 / 2199023255552 : ℚ), false)]

def sA47 : BisState := ⟨(109951162777596875 / 2199023255552 : ℚ), 50000, 50000, simRows simA 50000, trA47⟩

def trA48 : List (ℚ × Bool) := trA47 ++ [((219902325555196875 / 4398046511104 : ℚ), true)]

def sA48 : BisState := ⟨(109951162777596875 / 2199023255552 : ℚ), (219902325555196875 / 4398046511104 : ℚ), (219902325555196875 / 4398046511104 : ℚ), simRows simA (219902325555196875 / 4398046511104 : ℚ), trA48⟩

def trA49 : List (ℚ × Bool) := trA48 ++ [((439804651110390625 / 8796093022208 : ℚ), false)]

def sA49 : BisState := ⟨(439804651110390625 / 8796093022208 : ℚ), (219902325555196875 / 4398046511104 : ℚ), (219902325555196875 / 4398046511104 : ℚ), simRows simA (219902325555196875 / 4398046511104 : ℚ), trA49⟩

def trA50 : List (ℚ × Bool) := trA49 ++ [((879609302220784375 / 17592186044416 : ℚ), true)]

def sA50 : BisState := ⟨(439804651110390625 / 8796093022208 : ℚ), (879609302220784375 / 17592186044416 : ℚ), (879609302220784375 / 17592186044416 : ℚ), simRows simA (879609302220784375 / 17592186044416 : ℚ), trA50⟩

def teB1 : List (ℚ × Bool) := ([] : List (ℚ × Bool)) ++ [(10000, false)]

def teB2 : List (ℚ × Bool) := teB1 ++ [(20000, false)]

def teB3 : List (ℚ × Bool) := teB2 ++ [(40000, false)]

def teB4 : List (ℚ × Bool) := teB3 ++ [(80000, false)]

def teB5 : List (ℚ × Bool) := teB4 ++ [(160000, false)]

def teB6 : List (ℚ × Bool) := teB5 ++ [(320000, false)]

def teB7 : List (ℚ × Bool) := teB6 ++ [(640000, false)]

def teB8 : List (ℚ × Bool) := teB7 ++ [(1280000, false)]

def teB9 : List (ℚ × Bool) := teB8 ++ [(2560000, false)]

def teB10 : List (ℚ × Bool) := teB9 ++ [(5120000, false)]

def teB11 : List (ℚ × Bool) := teB10 ++ [(10240000, false)]

def teB12 : List (ℚ × Bool) := teB11 ++ [(20480000, false)]

def teB13 : List (ℚ × Bool) := teB12 ++ [(40960000, false)]

def teB14 : List (ℚ × Bool) := teB13 ++ [(81920000, false)]

def teB15 : List (ℚ × Bool) := teB14 ++ [(163840000, false)]

def teB16 : List (ℚ × Bool) := teB15 ++ [(327680000, false)]

def teB17 : List (ℚ × Bool) := teB16 ++ [(655360000, false)]

def teB18 : List (ℚ × Bool) := teB17 ++ [(1310720000, false)]

def teB19 : List (ℚ × Bool) := teB18 ++ [(2621440000, false)]

def teB20 : List (ℚ × Bool) := teB19 ++ [(5242880000, false)]

def sB0 : BisState := ⟨0, 10485760000, 10485760000, [], []⟩

def trB1 : List (ℚ × Bool) := ([] : List (ℚ × Bool)) ++ [(5242880000, false)]

def sB1 : BisState := ⟨5242880000, 10485760000, 10485760000, [], trB1⟩

def trB2 : List (ℚ × Bool) := trB1 ++ [(7864320000, false)]

def sB2 : BisState := ⟨7864320000, 10485760000, 10485760000, [], trB2⟩

def trB3 : List (ℚ × Bool) := trB2 ++ [(9175040000, false)]

def sB3 : BisState := ⟨9175040000, 10485760000, 10485760000, [], trB3⟩

def trB4 : List (ℚ × Bool) := trB3 ++ [(9830400000, false)]

def sB4 : BisState := ⟨9830400000, 10485760000, 10485760000, [], trB4⟩

def trB5 : List (ℚ × Bool) := trB4 ++ [(10158080000, false)]

def sB5 : BisState := ⟨10158080000, 10485760000, 10485760000, [], trB5⟩

def trB6 : List (ℚ × Bool) := trB5 ++ [(10321920000, false)]

def sB6 : BisState := ⟨10321920000, 10485760000, 10485760000, [], trB6⟩

def trB7 : List (ℚ × Bool) := trB6 ++ [(10403840000, false)]

def sB7 : BisState := ⟨10403840000, 10485760000, 10485760000, [], trB7⟩

def trB8 : List (ℚ × Bool) := trB7 ++ [(10444800000, false)]

def sB8 : BisState := ⟨10444800000, 10485760000, 10485760000, [], trB8⟩

def trB9 : List (ℚ × Bool) := trB8 ++ [(10465280000, false)]

def sB9 : BisState := ⟨10465280000, 10485760000, 10485760000, [], trB9⟩

def trB10 : List (ℚ × Bool) := trB9 ++ [(10475520000, false)]

def sB10 : BisState := ⟨10475520000, 10485760000, 10485760000, [], trB10⟩

def trB11 : List (ℚ × Bool) := trB10 ++ [(10480640000, false)]

def sB11 : BisState := ⟨10480640000, 10485760000, 10485760000, [], trB11⟩

def trB12 : List (ℚ × Bool) := trB11 ++ [(10483200000, false)]

def sB12 : BisState := ⟨10483200000, 10485760000, 10485760000, [], trB12⟩

def trB13 : List (ℚ × Bool) := trB12 ++ [(10484480000, false)]

def sB13 : BisState := ⟨10484480000, 10485760000, 10485760000, [], trB13⟩

def trB14 : List (ℚ × Bool) := trB13 ++ [(10485120000, false)]

def sB14 : BisState := ⟨10485120000, 10485760000, 10485760000, [], trB14⟩

def trB15 : List (ℚ × Bool) := trB14 ++ [(10485440000, false)]

def sB15 : BisState := ⟨10485440000, 10485760000, 10485760000, [], trB15⟩

def trB16 : List (ℚ × Bool) := trB15 ++ [(10485600000, false)]

def sB16 : BisState := ⟨10485600000, 10485760000, 10485760000, [], trB16⟩

def trB17 : List (ℚ × Bool) := trB16 ++ [(10485680000, false)]

def sB17 : BisState := ⟨10485680000, 10485760000, 10485760000, [], trB17⟩

def trB18 : List (ℚ × Bool) := trB17 ++ [(10485720000, false)]

def sB18 : BisState := ⟨10485720000, 10485760000, 10485760000, [], trB18⟩

def trB19 : List (ℚ × Bool) := trB18 ++ [(10485740000, false)]

def sB19 : BisState := ⟨10485740000, 10485760000, 10485760000, [], trB19⟩

def trB20 : List (ℚ × Bool) := trB19 ++ [(10485750000, false)]

def sB20 : BisState := ⟨10485750000, 10485760000, 10485760000, [], trB20⟩

def trB21 : List (ℚ × Bool) := trB20 ++ [(10485755000, false)]

def sB21 : BisState := ⟨10485755000, 10485760000, 10485760000, [], trB21⟩

def trB22 : List (ℚ × Bool) := trB21 ++ [(10485757500, false)]

def sB22 : BisState := ⟨10485757500, 10485760000, 10485760000, [], trB22⟩

def trB23 : List (ℚ × Bool) := trB22 ++ [(10485758750, false)]

def sB23 : BisState := ⟨10485758750, 10485760000, 10485760000, [], trB23⟩

def trB24 : List (ℚ × Bool) := trB23 ++ [(10485759375, false)]

def sB24 : BisState := ⟨10485759375, 10485760000, 10485760000, [], trB24⟩

def trB25 : List (ℚ × Bool) := trB24 ++ [((20971519375 / 2 : ℚ), false)]

def sB25 : BisState := ⟨(20971519375 / 2 : ℚ), 10485760000, 10485760000, [], trB25⟩

def trB26 : List (ℚ × Bool) := trB25 ++ [((41943039375 / 4 : ℚ), false)]

def sB26 : BisState := ⟨(41943039375 / 4 : ℚ), 10485760000, 10485760000, [], trB26⟩

def trB27 : List (ℚ × Bool) := trB26 ++ [((83886079375 / 8 : ℚ), false)]

def sB27 : BisState := ⟨(83886079375 / 8 : ℚ), 10485760000, 10485760000, [], trB27⟩

def trB28 : List (ℚ × Bool) := trB27 ++ [((167772159375 / 16 : ℚ), false)]

def sB28 : BisState := ⟨(167772159375 / 16 : ℚ), 10485760000, 10485760000, [], trB28⟩

def trB29 : List (ℚ × Bool) := trB28 ++ [((335544319375 / 32 : ℚ), false)]

def sB29 : BisState := ⟨(335544319375 / 32 : ℚ), 10485760000, 10485760000, [], trB29⟩

def trB30 : List (ℚ × Bool) := trB29 ++ [((671088639375 / 64 : ℚ), false)]

def sB30 : BisState := ⟨(671088639375 / 64 : ℚ), 10485760000, 10485760000, [], trB30⟩

def trB31 : List (ℚ × Bool) := trB30 ++ [((1342177279375 / 128 : ℚ), false)]

def sB31 : BisState := ⟨(1342177279375 / 128 : ℚ), 10485760000, 10485760000, [], trB31⟩

def trB32 : List (ℚ × Bool) := trB31 ++ [((2684354559375 / 256 : ℚ), false)]

def sB32 : BisState := ⟨(2684354559375 / 256 : ℚ), 10485760000, 10485760000, [], trB32⟩

def trB33 : List (ℚ × Bool) := trB32 ++ [((5368709119375 / 512 : ℚ), false)]

def sB33 : BisState := ⟨(5368709119375 / 512 : ℚ), 10485760000, 10485760000, [], trB33⟩

def trB34 : List (ℚ × Bool) := trB33 ++ [((10737418239375 / 1024 : ℚ), false)]

def sB34 : BisState := ⟨(10737418239375 / 1024 : ℚ), 10485760000, 10485760000, [], trB34⟩

def trB35 : List (ℚ × Bool) := trB34 ++ [((21474836479375 / 2048 : ℚ), false)]

def sB35 : BisState := ⟨(21474836479375 / 2048 : ℚ), 10485760000, 10485760000, [], trB35⟩

def trB36 : List (ℚ × Bool) := trB35 ++ [((42949672959375 / 4096 : ℚ), false)]

def sB36 : BisState := ⟨(42949672959375 / 4096 : ℚ), 10485760000, 10485760000, [], trB36⟩

def trB37 : List (ℚ × Bool) := trB36 ++ [((85899345919375 / 8192 : ℚ), false)]

def sB37 : BisState := ⟨(85899345919375 / 8192 : ℚ), 10485760000, 10485760000, [], trB37⟩

def trB38 : List (ℚ × Bool) := trB37 ++ [((171798691839375 / 16384 : ℚ), false)]

def sB38 : BisState := ⟨(171798691839375 / 16384 : ℚ), 10485760000, 10485760000, [], trB38⟩

def trB39 : List (ℚ × Bool) := trB38 ++ [((343597383679375 / 32768 : ℚ), false)]

def sB39 : BisState := ⟨(343597383679375 / 32768 : ℚ), 10485760000, 10485760000, [], trB39⟩

def trB40 : List (ℚ × Bool) := trB39 ++ [((687194767359375 / 65536 : ℚ), false)]

def sB40 : BisState := ⟨(687194767359375 / 65536 : ℚ), 10485760000, 10485760000, [], trB40⟩

def trB41 : List (ℚ × Bool) := trB40 ++ [((1374389534719375 / 131072 : ℚ), false)]

def sB41 : BisState := ⟨(1374389534719375 / 131072 : ℚ), 10485760000, 10485760000, [], trB41⟩

def trB42 : List (ℚ × Bool) := trB41 ++ [((2748779069439375 / 262144 : ℚ), false)]

def sB42 : BisState := ⟨(2748779069439375 / 262144 : ℚ), 10485760000, 10485760000, [], trB42⟩

def trB43 : List (ℚ × Bool) := trB42 ++ [((5497558138879375 / 524288 : ℚ), false)]

def sB43 : BisState := ⟨(5497558138879375 / 524288 : ℚ), 10485760000, 10485760000, [], trB43⟩

def trB44 : List (ℚ × Bool) := trB43 ++ [((10995116277759375 / 1048576 : ℚ), false)]

def sB44 : BisState := ⟨(10995116277759375 / 1048576 : ℚ), 10485760000, 10485760000, [], trB44⟩

def trB45 : List (ℚ × Bool) := trB44 ++ [((21990232555519375 / 2097152 : ℚ), false)]

def sB45 : BisState := ⟨(21990232555519375 / 2097152 : ℚ), 10485760000, 10485760000, [], trB45⟩

def trB46 : List (ℚ × Bool) := trB45 ++ [((43980465111039375 / 4194304 : ℚ), false)]

def sB46 : BisState := ⟨(43980465111039375 / 4194304 : ℚ), 10485760000, 10485760000, [], trB46⟩

def trB47 : List (ℚ × Bool) := trB46 ++ [((87960930222079375 / 8388608 : ℚ), false)]

def sB47 : BisState := ⟨(87960930222079375 / 8388608 : ℚ), 10485760000, 10485760000, [], trB47⟩

def trB48 : List (ℚ × Bool) := trB47 ++ [((175921860444159375 / 16777216 : ℚ), false)]

def sB48 : BisState := ⟨(175921860444159375 / 16777216 : ℚ), 10485760000, 10485760000, [], trB48⟩

def trB49 : List (ℚ × Bool) := trB48 ++ [((351843720888319375 / 33554432 : ℚ), false)]

def sB49 : BisState := ⟨(351843720888319375 / 33554432 : ℚ), 10485760000, 10485760000, [], trB49⟩

def trB50 : List (ℚ × Bool) := trB49 ++ [((703687441776639375 / 67108864 : ℚ), false)]

def sB50 : BisState := ⟨(703687441776639375 / 67108864 : ℚ), 10485760000, 10485760000, [], trB50⟩

/-- The two per-row facts every produced row satisfies by construction:
the exact balance recurrence, and the percent-funded formula with the
clamp at 0 and the zero-FFB guard. -/
def RowFact (r : YearRow) : Prop :=
  r.ending_balance = r.starting_balance + r.contributions + r.interest_earned - r.expenses ∧
  r.percent_funded =
    (if 0 < r.fully_funded_balance then max 0 (r.ending_balance / r.fully_funded_balance)
     else 0)

/-- The state invariant of the data model: age within `[0, cycle]` and a
positive cycle, for every component. -/
def InvStates (st : List CompState) : Prop :=
  ∀ c ∈ st, 0 ≤ c.age ∧ c.age ≤ c.cycle ∧ 1 ≤ c.cycle

/-- The expansion trace left behind by `k` consecutive failing attempts
starting at ceiling `hi`. -/
def expFails (hi : ℚ) : ℕ → List (ℚ × Bool)
  | 0 => []
  | Nat.succ k => (hi, false) :: expFails (hi * 2) k

/-! ### Generic reduction lemmas for the solver loops -/

theorem exceptBind_ok {α β : Type} (a : α) (f : α → Except PyErr β) :
    (Except.ok a : Except PyErr α) >>= f = f a := rfl

theorem bisect_step (sim : ℚ → Except PyErr (Bool × List YearRow)) (n : ℕ)
    (s : BisState) (mid : ℚ) (hmid : (s.lo + s.hi) / 2 = mid)
    (v : Bool) (rws : List YearRow) (hsim : sim mid = .ok (v, rws)) :
    bisectLoop sim (n + 1) s =
      bisectLoop sim n
        (if v then ⟨s.lo, mid, mid, rws, s.tr ++ [(mid, true)]⟩
         else ⟨mid, s.hi, s.best, s.bestRows, s.tr ++ [(mid, false)]⟩) := by
  show bisectLoop sim (Nat.succ n) s = _
  rw [bisectLoop, hmid, hsim, exceptBind_ok]
  cases v <;> rfl

theorem expand_step (sim : ℚ → Except PyErr (Bool × List YearRow)) (k : ℕ)
    (hi : ℚ) (tr : List (ℚ × Bool))
    (v : Bool) (rws : List YearRow) (hsim : sim hi = .ok (v, rws)) :
    expandHi sim (k + 1) hi tr =
      (if v then .ok (hi, tr ++ [(hi, true)])
       else expandHi sim k (hi * 2) (tr ++ [(hi, false)])) := by
  show expandHi sim (Nat.succ k) hi tr = _
  rw [expandHi, hsim, exceptBind_ok]

theorem sim_eq_ok (sim : ℚ → Except PyErr (Bool × List YearRow)) (c : ℚ)
    (h : (okOf (sim c)).isSome = true) :
    sim c = .ok (simVerdict sim c, simRows sim c) := by
  unfold simVerdict simRows
  cases hc : sim c with
  | ok p => simp [okOf, hc]
  | error e => rw [hc] at h; simp [okOf] at h

theorem bisect_step_pass (sim : ℚ → Except PyErr (Bool × List YearRow)) (n : ℕ)
    (s : BisState) (mid : ℚ) (hmid : (s.lo + s.hi) / 2 = mid)
    (hsome : (okOf (sim mid)).isSome = true) (hv : simVerdict sim mid = true) :
    bisectLoop sim (n + 1) s =
      bisectLoop sim n ⟨s.lo, mid, mid, simRows sim mid, s.tr ++ [(mid, true)]⟩ := by
  rw [bisect_step sim n s mid hmid (simVerdict sim mid) (simRows sim mid)
    (sim_eq_ok sim mid hsome), hv]
  rfl

theorem bisect_step_fail (sim : ℚ → Except PyErr (Bool × List YearRow)) (n : ℕ)
    (s : BisState) (mid : ℚ) (hmid : (s.lo + s.hi) / 2 = mid)
    (hsome : (okOf (sim mid)).isSome = true) (hv : simVerdict sim mid = false) :
    bisectLoop sim (n + 1) s =
      bisectLoop sim n ⟨mid, s.hi, s.best, s.bestRows, s.tr ++ [(mid, false)]⟩ := by
  rw [bisect_step sim n s mid hmid (simVerdict sim mid) (simRows sim mid)
    (sim_eq_ok sim mid hsome), hv]
  rfl

theorem expand_step_pass (sim : ℚ → Except PyErr (Bool × List YearRow)) (k : ℕ)
    (hi : ℚ) (tr : List (ℚ × Bool))
    (hsome : (okOf (sim hi)).isSome = true) (hv : simVerdict sim hi = true) :
    expandHi sim (k + 1) hi tr = .ok (hi, tr ++ [(hi, true)]) := by
  rw [expand_step sim k hi tr (simVerdict sim hi) (simRows sim hi)
    (sim_eq_ok sim hi hsome), hv]
  rfl

theorem expand_step_fail (sim : ℚ → Except PyErr (Bool × List YearRow)) (k : ℕ)
    (hi : ℚ) (tr : List (ℚ × Bool)) (hi2 : ℚ) (hdbl : hi * 2 = hi2)
    (hsome : (okOf (sim hi)).isSome = true) (hv : simVerdict sim hi = false) :
    expandHi sim (k + 1) hi tr = expandHi sim k hi2 (tr ++ [(hi, false)]) := by
  rw [expand_step sim k hi tr (simVerdict sim hi) (simRows sim hi)
    (sim_eq_ok sim hi hsome), hv]
  rw [if_neg (by simp)]
  rw [hdbl]

/-- Assembly of `recommendFull` from the results of its three phases. -/
theorem recommendFull_eq_of (start_year : ℤ) (horizon_years : ℕ)
    (inflation_rate interest_rate starting_balance : ℚ)
    (components : List CompInput) (min_balance : ℚ)
    (bt hi0 hi1 : ℚ) (etr : List (ℚ × Bool)) (s : BisState)
    (hbt : baseTotal components = .ok bt)
    (hhi0 : max 5000 bt * 2 = hi0)
    (hexp : expandHi (fun c => _simulate start_year horizon_years inflation_rate interest_rate
        starting_balance c components min_balance) 20 hi0 [] = .ok (hi1, etr))
    (hbis : bisectLoop (fun c => _simulate start_year horizon_years inflation_rate interest_rate
        starting_balance c components min_balance) 50 ⟨0, hi1, hi1, [], []⟩ = .ok s) :
    recommendFull start_year horizon_years inflation_rate interest_rate starting_balance
        components min_balance =
      .ok ⟨round2 s.best,
           s.bestRows.map (fun r => { r with recommended_contribution := round2 s.best }),
           etr, s.tr⟩ := by
  unfold recommendFull
  rw [hbt, exceptBind_ok]
  simp only []
  rw [hhi0, hexp, exceptBind_ok]
  simp only []
  rw [hbis, exceptBind_ok]

/-- Rational equality from two decidable comparisons (which evaluate
cheaply, unlike decidable rational equality). -/
theorem qeq_of_le (a b : ℚ) (h1 : decide (a ≤ b) = true) (h2 : decide (b ≤ a) = true) :
    a = b :=
  le_antisymm (of_decide_eq_true h1) (of_decide_eq_true h2)

/-- A successful rational-valued `Except` computation equals `.ok b` once
its value compares equal to `b` on both sides. -/
theorem exq_ok (e : Except PyErr ℚ) (b : ℚ) (hsome : (okOf e).isSome = true)
    (h1 : decide ((okOf e).getD 0 ≤ b) = true) (h2 : decide (b ≤ (okOf e).getD 0) = true) :
    e = .ok b := by
  cases e with
  | ok a =>
    have : a = b := by
      have ha : (okOf (Except.ok a : Except PyErr ℚ)).getD 0 = a := rfl
      rw [ha] at h1 h2
      exact qeq_of_le a b h1 h2
    rw [this]
  | error err => simp [okOf] at hsome

theorem stepA0 : bisectLoop simA 50 sA0 = bisectLoop simA 49 sA1 :=
  bisect_step_pass simA 49 sA0 100000 (by simp only [sA0]; norm_num)
    (by with_unfolding_all decide) (by with_unfolding_all decide)

theorem stepA1 : bisectLoop simA 49 sA1 = bisectLoop simA 48 sA2 :=
  bisect_step_pass simA 48 sA1 50000 (by simp only [sA1]; norm_num)
    (by with_unfolding_all decide) (by with_unfolding_all decide)

theorem stepA2 : bisectLoop simA 48 sA2 = bisectLoop simA 47 sA3 :=
  bisect_step_fail simA 47 sA2 25000 (by simp only [sA2]; norm_num)
    (by with_unfolding_all decide) (by with_unfolding_all decide)

theorem stepA3 : bisectLoop simA 47 sA3 = bisectLoop simA 46 sA4 :=
  bisect_step_fail simA 46 sA3 37500 (by simp only [sA3]; norm_num)
    (by with_unfolding_all decide) (by with_unfolding_all decide)

theorem stepA4 : bisectLoop simA 46 sA4 = bisectLoop simA 45 sA5 :=
  bisect_step_fail simA 45 sA4 43750 (by simp only [sA4]; norm_num)
    (by with_unfolding_all decide) (by with_unfolding_all decide)

theorem stepA5 : bisectLoop simA 45 sA5 = bisectLoop simA 44 sA6 :=
  bisect_step_fail simA 44 sA5 46875 (by simp only [sA5]; norm_num)
    (by with_unfolding_all decide) (by with_unfolding_all decide)

theorem stepA6 : bisectLoop simA 44 sA6 = bisectLoop simA 43 sA7 :=
  bisect_step_fail simA 43 sA6 (96875 / 2 : ℚ) (by simp only [sA6]; norm_num)
    (by with_unfolding_all decide) (by with_unfolding_all decide)

theorem stepA7 : bisectLoop simA 43 sA7 = bisectLoop simA 42 sA8 :=
  bisect_step_fail simA 42 sA7 (196875 / 4 : ℚ) (by simp only [sA7]; norm_num)
    (by with_unfolding_all decide) (by with_unfolding_all decide)

theorem stepA8 : bisectLoop simA 42 sA8 = bisectLoop simA 41 sA9 :=
  bisect_step_fail simA 41 sA8 (396875 / 8 : ℚ) (by simp only [sA8]; norm_num)
    (by with_unfolding_all decide) (by with_unfolding_all decide)

theorem stepA9 : bisectLoop simA 41 sA9 = bisectLoop simA 40 sA10 :=
  bisect_step_fail simA 40 sA9 (796875 / 16 : ℚ) (by simp only [sA9]; norm_num)
    (by with_unfolding_all decide) (by with_unfolding_all decide)

theorem stepA10 : bisectLoop simA 40 sA10 = bisectLoop simA 39 sA11 :=
  bisect_step_fail simA 39 sA10 (1596875 / 32 : ℚ) (by simp only [sA10]; norm_num)
    (by with_unfolding_all decide) (by with_unfolding_all decide)

theorem stepA11 : bisectLoop simA 39 sA11 = bisectLoop simA 38 sA12 :=
  bisect_step_fail simA 38 sA11 (3196875 / 64 : ℚ) (by simp only [sA11]; norm_num)
    (by with_unfolding_all decide) (by with_unfolding_all decide)

theorem stepA12 : bisectLoop simA 38 sA12 = bisectLoop simA 37 sA13 :=
  bisect_step_fail simA 37 sA12 (6396875 / 128 : ℚ) (by simp only [sA12]; norm_num)
    (by with_unfolding_all decide) (by with_unfolding_all decide)

theorem stepA13 : bisectLoop simA 37 sA13 = bisectLoop simA 36 sA14 :=
  bisect_step_fail simA 36 sA13 (12796875 / 256 : ℚ) (by simp only [sA13]; norm_num)
    (by with_unfolding_all decide) (by with_unfolding_all decide)

theorem stepA14 : bisectLoop simA 36 sA14 = bisectLoop simA 35 sA15 :=
  bisect_step_fail simA 35 sA14 (25596875 / 512 : ℚ) (by simp only [sA14]; norm_num)
    (by with_unfolding_all decide) (by with_unfolding_all decide)

theorem stepA15 : bisectLoop simA 35 sA15 = bisectLoop simA 34 sA16 :=
  bisect_step_fail simA 34 sA15 (51196875 / 1024 : ℚ) (by simp only [sA15]; norm_num)
    (by with_unfolding_all decide) (by with_unfolding_all decide)

theorem stepA16 : bisectLoop simA 34 sA16 = bisectLoop simA 33 sA17 :=
  bisect_step_fail simA 33 sA16 (102396875 / 2048 : ℚ) (by simp only [sA16]; norm_num)
    (by with_unfolding_all decide) (by with_unfolding_all decide)

theorem stepA17 : bisectLoop simA 33 sA17 = bisectLoop simA 32 sA18 :=
  bisect_step_fail simA 32 sA17 (204796875 / 4096 : ℚ) (by simp only [sA17]; norm_num)
    (by with_unfolding_all decide) (by with_unfolding_all decide)

theorem stepA18 : bisectLoop simA 32 sA18 = bisectLoop simA 31 sA19 :=
  bisect_step_fail simA 31 sA18 (409596875 / 8192 : ℚ) (by simp only [sA18]; norm_num)
    (by with_unfolding_all decide) (by with_unfolding_all decide)

theorem stepA19 : bisectLoop simA 31 sA19 = bisectLoop simA 30 sA20 :=
  bisect_step_fail simA 30 sA19 (819196875 / 16384 : ℚ) (by simp only [sA19]; norm_num)
    (by with_unfolding_all decide) (by with_unfolding_all decide)

theorem stepA20 : bisectLoop simA 30 sA20 = bisectLoop simA 29 sA21 :=
  bisect_step_fail simA 29 sA20 (1638396875 / 32768 : ℚ) (by simp only [sA20]; norm_num)
    (by with_unfolding_all decide) (by with_unfolding_all decide)

theorem stepA21 : bisectLoop simA 29 sA21 = bisectLoop simA 28 sA22 :=
  bisect_step_fail simA 28 sA21 (3276796875 / 65536 : ℚ) (by simp only [sA21]; norm_num)
    (by with_unfolding_all decide) (by with_unfolding_all decide)

theorem stepA22 : bisectLoop simA 28 sA22 = bisectLoop simA 27 sA23 :=
  bisect_step_fail simA 27 sA22 (6553596875 / 131072 : ℚ) (by simp only [sA22]; norm_num)
    (by with_unfolding_all decide) (by with_unfolding_all decide)

theorem stepA23 : bisectLoop simA 27 sA23 = bisectLoop simA 26 sA24 :=
  bisect_step_fail simA 26 sA23 (13107196875 / 262144 : ℚ) (by simp only [sA23]; norm_num)
    (by with_unfolding_all decide) (by with_unfolding_all decide)

theorem stepA24 : bisectLoop simA 26 sA24 = bisectLoop simA 25 sA25 :=
  bisect_step_fail simA 25 sA24 (26214396875 / 524288 : ℚ) (by simp only [sA24]; norm_num)
    (by with_unfolding_all decide) (by with_unfolding_all decide)

theorem stepA25 : bisectLoop simA 25 sA25 = bisectLoop simA 24 sA26 :=
  bisect_step_fail simA 24 sA25 (52428796875 / 1048576 : ℚ) (by simp only [sA25]; norm_num)
    (by with_unfolding_all decide) (by with_unfolding_all decide)

theorem stepA26 : bisectLoop simA 24 sA26 = bisectLoop simA 23 sA27 :=
  bisect_step_fail simA 23 sA26 (104857596875 / 2097152 : ℚ) (by simp only [sA26]; norm_num)
    (by with_unfolding_all decide) (by with_unfolding_all decide)

theorem stepA27 : bisectLoop simA 23 sA27 = bisectLoop simA 22 sA28 :=
  bisect_step_fail simA 22 sA27 (209715196875 / 4194304 : ℚ) (by simp only [sA27]; norm_num)
    (by with_unfolding_all decide) (by with_unfolding_all decide)

theorem stepA28 : bisectLoop simA 22 sA28 = bisectLoop simA 21 sA29 :=
  bisect_step_fail simA 21 sA28 (419430396875 / 8388608 : ℚ) (by simp only [sA28]; norm_num)
    (by with_unfolding_all decide) (by with_unfolding_all decide)

theorem stepA29 : bisectLoop simA 21 sA29 = bisectLoop simA 20 sA30 :=
  bisect_step_fail simA 20 sA29 (838860796875 / 16777216 : ℚ) (by simp only [sA29]; norm_num)
    (by with_unfolding_all decide) (by with_unfolding_all decide)

theorem stepA30 : bisectLoop simA 20 sA30 = bisectLoop simA 19 sA31 :=
  bisect_step_fail simA 19 sA30 (1677721596875 / 33554432 : ℚ) (by simp only [sA30]; norm_num)
    (by with_unfolding_all decide) (by with_unfolding_all decide)

theorem stepA31 : bisectLoop simA 19 sA31 = bisectLoop simA 18 sA32 :=
  bisect_step_fail simA 18 sA31 (3355443196875 / 67108864 : ℚ) (by simp only [sA31]; norm_num)
    (by with_unfolding_all decide) (by with_unfolding_all decide)

theorem stepA32 : bisectLoop simA 18 sA32 = bisectLoop simA 17 sA33 :=
  bisect_step_fail simA 17 sA32 (6710886396875 / 134217728 : ℚ) (by simp only [sA32]; norm_num)
    (by with_unfolding_all decide) (by with_unfolding_all decide)

theorem stepA33 : bisectLoop simA 17 sA33 = bisectLoop simA 16 sA34 :=
  bisect_step_fail simA 16 sA33 (13421772796875 / 268435456 : ℚ) (by simp only [sA33]; norm_num)
    (by with_unfolding_all decide) (by with_unfolding_all decide)

theorem stepA34 : bisectLoop simA 16 sA34 = bisectLoop simA 15 sA35 :=
  bisect_step_fail simA 15 sA34 (26843545596875 / 536870912 : ℚ) (by simp only [sA34]; norm_num)
    (by with_unfolding_all decide) (by with_unfolding_all decide)

theorem stepA35 : bisectLoop simA 15 sA35 = bisectLoop simA 14 sA36 :=
  bisect_step_fail simA 14 sA35 (53687091196875 / 1073741824 : ℚ) (by simp only [sA35]; norm_num)
    (by with_unfolding_all decide) (by with_unfolding_all decide)

theorem stepA36 : bisectLoop simA 14 sA36 = bisectLoop simA 13 sA37 :=
  bisect_step_fail simA 13 sA36 (107374182396875 / 2147483648 : ℚ) (by simp only [sA36]; norm_num)
    (by with_unfolding_all decide) (by with_unfolding_all decide)

theorem stepA37 : bisectLoop simA 13 sA37 = bisectLoop simA 12 sA38 :=
  bisect_step_fail simA 12 sA37 (214748364796875 / 4294967296 : ℚ) (by simp only [sA37]; norm_num)
    (by with_unfolding_all decide) (by with_unfolding_all decide)

theorem stepA38 : bisectLoop simA 12 sA38 = bisectLoop simA 11 sA39 :=
  bisect_step_fail simA 11 sA38 (429496729596875 / 8589934592 : ℚ) (by simp only [sA38]; norm_num)
    (by with_unfolding_all decide) (by with_unfolding_all decide)

theorem stepA39 : bisectLoop simA 11 sA39 = bisectLoop simA 10 sA40 :=
  bisect_step_fail simA 10 sA39 (858993459196875 / 17179869184 : ℚ) (by simp only [sA39]; norm_num)
    (by with_unfolding_all decide) (by with_unfolding_all decide)

theorem stepA40 : bisectLoop simA 10 sA40 = bisectLoop simA 9 sA41 :=
  bisect_step_fail simA 9 sA40 (1717986918396875 / 34359738368 : ℚ) (by simp only [sA40]; norm_num)
    (by with_unfolding_all decide) (by with_unfolding_all decide)

theorem stepA41 : bisectLoop simA 9 sA41 = bisectLoop simA 8 sA42 :=
  bisect_step_fail simA 8 sA41 (3435973836796875 / 68719476736 : ℚ) (by simp only [sA41]; norm_num)
    (by with_unfolding_all decide) (by with_unfolding_all decide)

theorem stepA42 : bisectLoop simA 8 sA42 = bisectLoop simA 7 sA43 :=
  bisect_step_fail simA 7 sA42 (6871947673596875 / 137438953472 : ℚ) (by simp only [sA42]; norm_num)
    (by with_unfolding_all decide) (by with_unfolding_all decide)

theorem stepA43 : bisectLoop simA 7 sA43 = bisectLoop simA 6 sA44 :=
  bisect_step_fail simA 6 sA43 (13743895347196875 / 274877906944 : ℚ) (by simp only [sA43]; norm_num)
    (by with_unfolding_all decide) (by with_unfolding_all decide)

theorem stepA44 : bisectLoop simA 6 sA44 = bisectLoop simA 5 sA45 :=
  bisect_step_fail simA 5 sA44 (27487790694396875 / 549755813888 : ℚ) (by simp only [sA44]; norm_num)
    (by with_unfolding_all decide) (by with_unfolding_all decide)

theorem stepA45 : bisectLoop simA 5 sA45 = bisectLoop simA 4 sA46 :=
  bisect_step_fail simA 4 sA45 (54975581388796875 / 1099511627776 : ℚ) (by simp only [sA45]; norm_num)
    (by with_unfolding_all decide) (by with_unfolding_all decide)

theorem stepA46 : bisectLoop simA 4 sA46 = bisectLoop simA 3 sA47 :=
  bisect_step_fail simA 3 sA46 (109951162777596875 / 2199023255552 : ℚ) (by simp only [sA46]; norm_num)
    (by with_unfolding_all decide) (by with_unfolding_all decide)

theorem stepA47 : bisectLoop simA 3 sA47 = bisectLoop simA 2 sA48 :=
  bisect_step_pass simA 2 sA47 (219902325555196875 / 4398046511104 : ℚ) (by simp only [sA47]; norm_num)
    (by with_unfolding_all decide) (by with_unfolding_all decide)

theorem stepA48 : bisectLoop simA 2 sA48 = bisectLoop simA 1 sA49 :=
  bisect_step_fail simA 1 sA48 (439804651110390625 / 8796093022208 : ℚ) (by simp only [sA48]; norm_num)
    (by with_unfolding_all decide) (by with_unfolding_all decide)

theorem stepA49 : bisectLoop simA 1 sA49 = bisectLoop simA 0 sA50 :=
  bisect_step_pass simA 0 sA49 (879609302220784375 / 17592186044416 : ℚ) (by simp only [sA49]; norm_num)
    (by with_unfolding_all decide) (by with_unfolding_all decide)

theorem bisA : bisectLoop simA 50 sA0 = .ok sA50 :=
  (stepA0.trans (stepA1.trans (stepA2.trans (stepA3.trans (stepA4.trans (stepA5.trans (stepA6.trans (stepA7.trans (stepA8.trans (stepA9.trans (stepA10.trans (stepA11.trans (stepA12.trans (stepA13.trans (stepA14.trans (stepA15.trans (stepA16.trans (stepA17.trans (stepA18.trans (stepA19.trans (stepA20.trans (stepA21.trans (stepA22.trans (stepA23.trans (stepA24.trans (stepA25.trans (stepA26.trans (stepA27.trans (stepA28.trans (stepA29.trans (stepA30.trans (stepA31.trans (stepA32.trans (stepA33.trans (stepA34.trans (stepA35.trans (stepA36.trans (stepA37.trans (stepA38.trans (stepA39.trans (stepA40.trans (stepA41.trans (stepA42.trans (stepA43.trans (stepA44.trans (stepA45.trans (stepA46.trans (stepA47.trans (stepA48.trans (stepA49.trans rfl))))))))))))))))))))))))))))))))))))))))))))))))))

-- bracket expansion of the non-convergent run: 20 failing attempts

theorem expB0 : expandHi simB 20 10000 ([] : List (ℚ × Bool)) = expandHi simB 19 20000 teB1 :=
  expand_step_fail simB 19 10000 ([] : List (ℚ × Bool)) 20000 (by norm_num)
    (by with_unfolding_all decide) (by with_unfolding_all decide)

theorem expB1 : expandHi simB 19 20000 teB1 = expandHi simB 18 40000 teB2 :=
  expand_step_fail simB 18 20000 teB1 40000 (by norm_num)
    (by with_unfolding_all decide) (by with_unfolding_all decide)

theorem expB2 : expandHi simB 18 40000 teB2 = expandHi simB 17 80000 teB3 :=
  expand_step_fail simB 17 40000 teB2 80000 (by norm_num)
    (by with_unfolding_all decide) (by with_unfolding_all decide)

theorem expB3 : expandHi simB 17 80000 teB3 = expandHi simB 16 160000 teB4 :=
  expand_step_fail simB 16 80000 teB3 160000 (by norm_num)
    (by with_unfolding_all decide) (by with_unfolding_all decide)

theorem expB4 : expandHi simB 16 160000 teB4 = expandHi simB 15 320000 teB5 :=
  expand_step_fail simB 15 160000 teB4 320000 (by norm_num)
    (by with_unfolding_all decide) (by with_unfolding_all decide)

theorem expB5 : expandHi simB 15 320000 teB5 = expandHi simB 14 640000 teB6 :=
  expand_step_fail simB 14 320000 teB5 640000 (by norm_num)
    (by with_unfolding_all decide) (by with_unfolding_all decide)

theorem expB6 : expandHi simB 14 640000 teB6 = expandHi simB 13 1280000 teB7 :=
  expand_step_fail simB 13 640000 teB6 1280000 (by norm_num)
    (by with_unfolding_all decide) (by with_unfolding_all decide)

theorem expB7 : expandHi simB 13 1280000 teB7 = expandHi simB 12 2560000 teB8 :=
  expand_step_fail simB 12 1280000 teB7 2560000 (by norm_num)
    (by with_unfolding_all decide) (by with_unfolding_all decide)

theorem expB8 : expandHi simB 12 2560000 teB8 = expandHi simB 11 5120000 teB9 :=
  expand_step_fail simB 11 2560000 teB8 5120000 (by norm_num)
    (by with_unfolding_all decide) (by with_unfolding_all decide)

theorem expB9 : expandHi simB 11 5120000 teB9 = expandHi simB 10 10240000 teB10 :=
  expand_step_fail simB 10 5120000 teB9 10240000 (by norm_num)
    (by with_unfolding_all decide) (by with_unfolding_all decide)

theorem expB10 : expandHi simB 10 10240000 teB10 = expandHi simB 9 20480000 teB11 :=
  expand_step_fail simB 9 10240000 teB10 20480000 (by norm_num)
    (by with_unfolding_all decide) (by with_unfolding_all decide)

theorem expB11 : expandHi simB 9 20480000 teB11 = expandHi simB 8 40960000 teB12 :=
  expand_step_fail simB 8 20480000 teB11 40960000 (by norm_num)
    (by with_unfolding_all decide) (by with_unfolding_all decide)

theorem expB12 : expandHi simB 8 40960000 teB12 = expandHi simB 7 81920000 teB13 :=
  expand_step_fail simB 7 40960000 teB12 81920000 (by norm_num)
    (by with_unfolding_all decide) (by with_unfolding_all decide)

theorem expB13 : expandHi simB 7 81920000 teB13 = expandHi simB 6 163840000 teB14 :=
  expand_step_fail simB 6 81920000 teB13 163840000 (by norm_num)
    (by with_unfolding_all decide) (by with_unfolding_all decide)

theorem expB14 : expandHi simB 6 163840000 teB14 = expandHi simB 5 327680000 teB15 :=
  expand_step_fail simB 5 163840000 teB14 327680000 (by norm_num)
    (by with_unfolding_all decide) (by with_unfolding_all decide)

theorem expB15 : expandHi simB 5 327680000 teB15 = expandHi simB 4 655360000 teB16 :=
  expand_step_fail simB 4 327680000 teB15 655360000 (by norm_num)
    (by with_unfolding_all decide) (by with_unfolding_all decide)

theorem expB16 : expandHi simB 4 655360000 teB16 = expandHi simB 3 1310720000 teB17 :=
  expand_step_fail simB 3 655360000 teB16 1310720000 (by norm_num)
    (by with_unfolding_all decide) (by with_unfolding_all decide)

theorem expB17 : expandHi simB 3 1310720000 teB17 = expandHi simB 2 2621440000 teB18 :=
  expand_step_fail simB 2 1310720000 teB17 2621440000 (by norm_num)
    (by with_unfolding_all decide) (by with_unfolding_all decide)

theorem expB18 : expandHi simB 2 2621440000 teB18 = expandHi simB 1 5242880000 teB19 :=
  expand_step_fail simB 1 2621440000 teB18 5242880000 (by norm_num)
    (by with_unfolding_all decide) (by with_unfolding_all decide)

theorem expB19 : expandHi simB 1 5242880000 teB19 = expandHi simB 0 10485760000 teB20 :=
  expand_step_fail simB 0 5242880000 teB19 10485760000 (by norm_num)
    (by with_unfolding_all decide) (by with_unfolding_all decide)

theorem expBall : expandHi simB 20 10000 ([] : List (ℚ × Bool)) = .ok (10485760000, teB20) :=
  (expB0.trans (expB1.trans (expB2.trans (expB3.trans (expB4.trans (expB5.trans (expB6.trans (expB7.trans (expB8.trans (expB9.trans (expB10.trans (expB11.trans (expB12.trans (expB13.trans (expB14.trans (expB15.trans (expB16.trans (expB17.trans (expB18.trans (expB19.trans rfl))))))))))))))))))))

theorem stepB0 : bisectLoop simB 50 sB0 = bisectLoop simB 49 sB1 :=
  bisect_step_fail simB 49 sB0 5242880000 (by simp only [sB0]; norm_num)
    (by with_unfolding_all decide) (by with_unfolding_all decide)

theorem stepB1 : bisectLoop simB 49 sB1 = bisectLoop simB 48 sB2 :=
  bisect_step_fail simB 48 sB1 7864320000 (by simp only [sB1]; norm_num)
    (by with_unfolding_all decide) (by with_unfolding_all decide)

theorem stepB2 : bisectLoop simB 48 sB2 = bisectLoop simB 47 sB3 :=
  bisect_step_fail simB 47 sB2 9175040000 (by simp only [sB2]; norm_num)
    (by with_unfolding_all decide) (by with_unfolding_all decide)

theorem stepB3 : bisectLoop simB 47 sB3 = bisectLoop simB 46 sB4 :=
  bisect_step_fail simB 46 sB3 9830400000 (by simp only [sB3]; norm_num)
    (by with_unfolding_all decide) (by with_unfolding_all decide)

theorem stepB4 : bisectLoop simB 46 sB4 = bisectLoop simB 45 sB5 :=
  bisect_step_fail simB 45 sB4 10158080000 (by simp only [sB4]; norm_num)
    (by with_unfolding_all decide) (by with_unfolding_all decide)

theorem stepB5 : bisectLoop simB 45 sB5 = bisectLoop simB 44 sB6 :=
  bisect_step_fail simB 44 sB5 10321920000 (by simp only [sB5]; norm_num)
    (by with_unfolding_all decide) (by with_unfolding_all decide)

theorem stepB6 : bisectLoop simB 44 sB6 = bisectLoop simB 43 sB7 :=
  bisect_step_fail simB 43 sB6 10403840000 (by simp only [sB6]; norm_num)
    (by with_unfolding_all decide) (by with_unfolding_all decide)

theorem stepB7 : bisectLoop simB 43 sB7 = bisectLoop simB 42 sB8 :=
  bisect_step_fail simB 42 sB7 10444800000 (by simp only [sB7]; norm_num)
    (by with_unfolding_all decide) (by with_unfolding_all decide)

theorem stepB8 : bisectLoop simB 42 sB8 = bisectLoop simB 41 sB9 :=
  bisect_step_fail simB 41 sB8 10465280000 (by simp only [sB8]; norm_num)
    (by with_unfolding_all decide) (by with_unfolding_all decide)

theorem stepB9 : bisectLoop simB 41 sB9 = bisectLoop simB 40 sB10 :=
  bisect_step_fail simB 40 sB9 10475520000 (by simp only [sB9]; norm_num)
    (by with_unfolding_all decide) (by with_unfolding_all decide)

theorem stepB10 : bisectLoop simB 40 sB10 = bisectLoop simB 39 sB11 :=
  bisect_step_fail simB 39 sB10 10480640000 (by simp only [sB10]; norm_num)
    (by with_unfolding_all decide) (by with_unfolding_all decide)

theorem stepB11 : bisectLoop simB 39 sB11 = bisectLoop simB 38 sB12 :=
  bisect_step_fail simB 38 sB11 10483200000 (by simp only [sB11]; norm_num)
    (by with_unfolding_all decide) (by with_unfolding_all decide)

theorem stepB12 : bisectLoop simB 38 sB12 = bisectLoop simB 37 sB13 :=
  bisect_step_fail simB 37 sB12 10484480000 (by simp only [sB12]; norm_num)
    (by with_unfolding_all decide) (by with_unfolding_all decide)

theorem stepB13 : bisectLoop simB 37 sB13 = bisectLoop simB 36 sB14 :=
  bisect_step_fail simB 36 sB13 10485120000 (by simp only [sB13]; norm_num)
    (by with_unfolding_all decide) (by with_unfolding_all decide)

theorem stepB14 : bisectLoop simB 36 sB14 = bisectLoop simB 35 sB15 :=
  bisect_step_fail simB 35 sB14 10485440000 (by simp only [sB14]; norm_num)
    (by with_unfolding_all decide) (by with_unfolding_all decide)

theorem stepB15 : bisectLoop simB 35 sB15 = bisectLoop simB 34 sB16 :=
  bisect_step_fail simB 34 sB15 10485600000 (by simp only [sB15]; norm_num)
    (by with_unfolding_all decide) (by with_unfolding_all decide)

theorem stepB16 : bisectLoop simB 34 sB16 = bisectLoop simB 33 sB17 :=
  bisect_step_fail simB 33 sB16 10485680000 (by simp only [sB16]; norm_num)
    (by with_unfolding_all decide) (by with_unfolding_all decide)

theorem stepB17 : bisectLoop simB 33 sB17 = bisectLoop simB 32 sB18 :=
  bisect_step_fail simB 32 sB17 10485720000 (by simp only [sB17]; norm_num)
    (by with_unfolding_all decide) (by with_unfolding_all decide)

theorem stepB18 : bisectLoop simB 32 sB18 = bisectLoop simB 31 sB19 :=
  bisect_step_fail simB 31 sB18 10485740000 (by simp only [sB18]; norm_num)
    (by with_unfolding_all decide) (by with_unfolding_all decide)

theorem stepB19 : bisectLoop simB 31 sB19 = bisectLoop simB 30 sB20 :=
  bisect_step_fail simB 30 sB19 10485750000 (by simp only [sB19]; norm_num)
    (by with_unfolding_all decide) (by with_unfolding_all decide)

theorem stepB20 : bisectLoop simB 30 sB20 = bisectLoop simB 29 sB21 :=
  bisect_step_fail simB 29 sB20 10485755000 (by simp only [sB20]; norm_num)
    (by with_unfolding_all decide) (by with_unfolding_all decide)

theorem stepB21 : bisectLoop simB 29 sB21 = bisectLoop simB 28 sB22 :=
  bisect_step_fail simB 28 sB21 10485757500 (by simp only [sB21]; norm_num)
    (by with_unfolding_all decide) (by with_unfolding_all decide)

theorem stepB22 : bisectLoop simB 28 sB22 = bisectLoop simB 27 sB23 :=
  bisect_step_fail simB 27 sB22 10485758750 (by simp only [sB22]; norm_num)
    (by with_unfolding_all decide) (by with_unfolding_all decide)

theorem stepB23 : bisectLoop simB 27 sB23 = bisectLoop simB 26 sB24 :=
  bisect_step_fail simB 26 sB23 10485759375 (by simp only [sB23]; norm_num)
    (by with_unfolding_all decide) (by with_unfolding_all decide)

theorem stepB24 : bisectLoop simB 26 sB24 = bisectLoop simB 25 sB25 :=
  bisect_step_fail simB 25 sB24 (20971519375 / 2 : ℚ) (by simp only [sB24]; norm_num)
    (by with_unfolding_all decide) (by with_unfolding_all decide)

theorem stepB25 : bisectLoop simB 25 sB25 = bisectLoop simB 24 sB26 :=
  bisect_step_fail simB 24 sB25 (41943039375 / 4 : ℚ) (by simp only [sB25]; norm_num)
    (by with_unfolding_all decide) (by with_unfolding_all decide)

theorem stepB26 : bisectLoop simB 24 sB26 = bisectLoop simB 23 sB27 :=
  bisect_step_fail simB 23 sB26 (83886079375 / 8 : ℚ) (by simp only [sB26]; norm_num)
    (by with_unfolding_all decide) (by with_unfolding_all decide)

theorem stepB27 : bisectLoop simB 23 sB27 = bisectLoop simB 22 sB28 :=
  bisect_step_fail simB 22 sB27 (167772159375 / 16 : ℚ) (by simp only [sB27]; norm_num)
    (by with_unfolding_all decide) (by with_unfolding_all decide)

theorem stepB28 : bisectLoop simB 22 sB28 = bisectLoop simB 21 sB29 :=
  bisect_step_fail simB 21 sB28 (335544319375 / 32 : ℚ) (by simp only [sB28]; norm_num)
    (by with_unfolding_all decide) (by with_unfolding_all decide)

theorem stepB29 : bisectLoop simB 21 sB29 = bisectLoop simB 20 sB30 :=
  bisect_step_fail simB 20 sB29 (671088639375 / 64 : ℚ) (by simp only [sB29]; norm_num)
    (by with_unfolding_all decide) (by with_unfolding_all decide)

theorem stepB30 : bisectLoop simB 20 sB30 = bisectLoop simB 19 sB31 :=
  bisect_step_fail simB 19 sB30 (1342177279375 / 128 : ℚ) (by simp only [sB30]; norm_num)
    (by with_unfolding_all decide) (by with_unfolding_all decide)

theorem stepB31 : bisectLoop simB 19 sB31 = bisectLoop simB 18 sB32 :=
  bisect_step_fail simB 18 sB31 (2684354559375 / 256 : ℚ) (by simp only [sB31]; norm_num)
    (by with_unfolding_all decide) (by with_unfolding_all decide)

theorem stepB32 : bisectLoop simB 18 sB32 = bisectLoop simB 17 sB33 :=
  bisect_step_fail simB 17 sB32 (5368709119375 / 512 : ℚ) (by simp only [sB32]; norm_num)
    (by with_unfolding_all decide) (by with_unfolding_all decide)

theorem stepB33 : bisectLoop simB 17 sB33 = bisectLoop simB 16 sB34 :=
  bisect_step_fail simB 16 sB33 (10737418239375 / 1024 : ℚ) (by simp only [sB33]; norm_num)
    (by with_unfolding_all decide) (by with_unfolding_all decide)

theorem stepB34 : bisectLoop simB 16 sB34 = bisectLoop simB 15 sB35 :=
  bisect_step_fail simB 15 sB34 (21474836479375 / 2048 : ℚ) (by simp only [sB34]; norm_num)
    (by with_unfolding_all decide) (by with_unfolding_all decide)

theorem stepB35 : bisectLoop simB 15 sB35 = bisectLoop simB 14 sB36 :=
  bisect_step_fail simB 14 sB35 (42949672959375 / 4096 : ℚ) (by simp only [sB35]; norm_num)
    (by with_unfolding_all decide) (by with_unfolding_all decide)

theorem stepB36 : bisectLoop simB 14 sB36 = bisectLoop simB 13 sB37 :=
  bisect_step_fail simB 13 sB36 (85899345919375 / 8192 : ℚ) (by simp only [sB36]; norm_num)
    (by with_unfolding_all decide) (by with_unfolding_all decide)

theorem stepB37 : bisectLoop simB 13 sB37 = bisectLoop simB 12 sB38 :=
  bisect_step_fail simB 12 sB37 (171798691839375 / 16384 : ℚ) (by simp only [sB37]; norm_num)
    (by with_unfolding_all decide) (by with_unfolding_all decide)

theorem stepB38 : bisectLoop simB 12 sB38 = bisectLoop simB 11 sB39 :=
  bisect_step_fail simB 11 sB38 (343597383679375 / 32768 : ℚ) (by simp only [sB38]; norm_num)
    (by with_unfolding_all decide) (by with_unfolding_all decide)

theorem stepB39 : bisectLoop simB 11 sB39 = bisectLoop simB 10 sB40 :=
  bisect_step_fail simB 10 sB39 (687194767359375 / 65536 : ℚ) (by simp only [sB39]; norm_num)
    (by with_unfolding_all decide) (by with_unfolding_all decide)

theorem stepB40 : bisectLoop simB 10 sB40 = bisectLoop simB 9 sB41 :=
  bisect_step_fail simB 9 sB40 (1374389534719375 / 131072 : ℚ) (by simp only [sB40]; norm_num)
    (by with_unfolding_all decide) (by with_unfolding_all decide)

theorem stepB41 : bisectLoop simB 9 sB41 = bisectLoop simB 8 sB42 :=
  bisect_step_fail simB 8 sB41 (2748779069439375 / 262144 : ℚ) (by simp only [sB41]; norm_num)
    (by with_unfolding_all decide) (by with_unfolding_all decide)

theorem stepB42 : bisectLoop simB 8 sB42 = bisectLoop simB 7 sB43 :=
  bisect_step_fail simB 7 sB42 (5497558138879375 / 524288 : ℚ) (by simp only [sB42]; norm_num)
    (by with_unfolding_all decide) (by with_unfolding_all decide)

theorem stepB43 : bisectLoop simB 7 sB43 = bisectLoop simB 6 sB44 :=
  bisect_step_fail simB 6 sB43 (10995116277759375 / 1048576 : ℚ) (by simp only [sB43]; norm_num)
    (by with_unfolding_all decide) (by with_unfolding_all decide)

theorem stepB44 : bisectLoop simB 6 sB44 = bisectLoop simB 5 sB45 :=
  bisect_step_fail simB 5 sB44 (21990232555519375 / 2097152 : ℚ) (by simp only [sB44]; norm_num)
    (by with_unfolding_all decide) (by with_unfolding_all decide)

theorem stepB45 : bisectLoop simB 5 sB45 = bisectLoop simB 4 sB46 :=
  bisect_step_fail simB 4 sB45 (43980465111039375 / 4194304 : ℚ) (by simp only [sB45]; norm_num)
    (by with_unfolding_all decide) (by with_unfolding_all decide)

theorem stepB46 : bisectLoop simB 4 sB46 = bisectLoop simB 3 sB47 :=
  bisect_step_fail simB 3 sB46 (87960930222079375 / 8388608 : ℚ) (by simp only [sB46]; norm_num)
    (by with_unfolding_all decide) (by with_unfolding_all decide)

theorem stepB47 : bisectLoop simB 3 sB47 = bisectLoop simB 2 sB48 :=
  bisect_step_fail simB 2 sB47 (175921860444159375 / 16777216 : ℚ) (by simp only [sB47]; norm_num)
    (by with_unfolding_all decide) (by with_unfolding_all decide)

theorem stepB48 : bisectLoop simB 2 sB48 = bisectLoop simB 1 sB49 :=
  bisect_step_fail simB 1 sB48 (351843720888319375 / 33554432 : ℚ) (by simp only [sB48]; norm_num)
    (by with_unfolding_all decide) (by with_unfolding_all decide)

theorem stepB49 : bisectLoop simB 1 sB49 = bisectLoop simB 0 sB50 :=
  bisect_step_fail simB 0 sB49 (703687441776639375 / 67108864 : ℚ) (by simp only [sB49]; norm_num)
    (by with_unfolding_all decide) (by with_unfolding_all decide)

theorem bisB : bisectLoop simB 50 sB0 = .ok sB50 :=
  (stepB0.trans (stepB1.trans (stepB2.trans (stepB3.trans (stepB4.trans (stepB5.trans (stepB6.trans (stepB7.trans (stepB8.trans (stepB9.trans (stepB10.trans (stepB11.trans (stepB12.trans (stepB13.trans (stepB14.trans (stepB15.trans (stepB16.trans (stepB17.trans (stepB18.trans (stepB19.trans (stepB20.trans (stepB21.trans (stepB22.trans (stepB23.trans (stepB24.trans (stepB25.trans (stepB26.trans (stepB27.trans (stepB28.trans (stepB29.trans (stepB30.trans (stepB31.trans (stepB32.trans (stepB33.trans (stepB34.trans (stepB35.trans (stepB36.trans (stepB37.trans (stepB38.trans (stepB39.trans (stepB40.trans (stepB41.trans (stepB42.trans (stepB43.trans (stepB44.trans (stepB45.trans (stepB46.trans (stepB47.trans (stepB48.trans (stepB49.trans rfl))))))))))))))))))))))))))))))))))))))))))))))))))

/-- Full evaluation of the solver on the reference scenario. -/
theorem evalA : recommendFull 2024 10 0 0 0 [scenarioComp] 0 =
    .ok ⟨round2 sA50.best,
         sA50.bestRows.map (fun r => { r with recommended_contribution := round2 sA50.best }),
         [] ++ [(200000, true)], sA50.tr⟩ :=
  recommendFull_eq_of 2024 10 0 0 0 [scenarioComp] 0 100000 200000 200000
    ([] ++ [(200000, true)]) sA50
    (exq_ok _ 100000 (by with_unfolding_all decide) (by with_unfolding_all decide)
      (by with_unfolding_all decide))
    (by norm_num)
    (expand_step_pass simA 19 200000 [] (by with_unfolding_all decide)
      (by with_unfolding_all decide))
    bisA

/-- Full evaluation of the solver on the non-convergent run. -/
theorem evalB : recommendFull 2024 1 0 0 0 [comp100] 1000000000000000 =
    .ok ⟨round2 sB50.best,
         sB50.bestRows.map (fun r => { r with recommended_contribution := round2 sB50.best }),
         teB20, sB50.tr⟩ :=
  recommendFull_eq_of 2024 1 0 0 0 [comp100] 1000000000000000 100 10000 10485760000
    teB20 sB50
    (exq_ok _ 100 (by with_unfolding_all decide) (by with_unfolding_all decide)
      (by with_unfolding_all decide))
    (by norm_num)
    expBall
    bisB

theorem yearRow_fact (sy : ℤ) (infl ir ac : ℚ) (i : ℕ) (bal : ℚ) (st : List CompState) :
    RowFact (yearRow sy infl ir ac i bal st) := ⟨rfl, rfl⟩

theorem yearOk_iff (mb : ℚ) (r : YearRow) : yearOk mb r = true ↔ RowOk mb r := by
  simp [yearOk, RowOk]

theorem simGo_rowfacts (sy : ℤ) (infl ir ac mb : ℚ) :
    ∀ (n i : ℕ) (bal : ℚ) (st : List CompState) (r : YearRow),
      r ∈ (simGo sy infl ir ac mb n i bal st).2 → RowFact r := by
  intro n
  induction n with
  | zero => intro i bal st r hr; simp [simGo] at hr
  | succ m ih =>
    intro i bal st r hr
    rw [simGo] at hr
    by_cases hok : yearOk mb (yearRow sy infl ir ac i bal st) = true
    · rw [if_pos hok] at hr
      rcases List.mem_cons.mp hr with h | h
      · rw [h]; exact yearRow_fact sy infl ir ac i bal st
      · exact ih (i + 1) _ _ r h
    · rw [if_neg hok] at hr
      rcases List.mem_singleton.mp hr with h
      rw [h]; exact yearRow_fact sy infl ir ac i bal st

theorem simGo_verdict (sy : ℤ) (infl ir ac mb : ℚ) :
    ∀ (n i : ℕ) (bal : ℚ) (st : List CompState),
      (((simGo sy infl ir ac mb n i bal st).1 = true) →
        ((simGo sy infl ir ac mb n i bal st).2.length = n ∧
          ∀ r ∈ (simGo sy infl ir ac mb n i bal st).2, RowOk mb r)) ∧
      (((simGo sy infl ir ac mb n i bal st).1 = false) →
        ∃ pre last, (simGo sy infl ir ac mb n i bal st).2 = pre ++ [last] ∧
          (simGo sy infl ir ac mb n i bal st).2.length ≤ n ∧
          (∀ r ∈ pre, RowOk mb r) ∧ ¬ RowOk mb last) := by
  intro n
  induction n with
  | zero =>
    intro i bal st
    constructor
    · intro _; simp [simGo]
    · intro h; simp [simGo] at h
  | succ m ih =>
    intro i bal st
    rw [simGo]
    by_cases hok : yearOk mb (yearRow sy infl ir ac i bal st) = true
    · rw [if_pos hok]
      have hrowok : RowOk mb (yearRow sy infl ir ac i bal st) := (yearOk_iff mb _).mp hok
      obtain ⟨ihT, ihF⟩ := ih (i + 1) (yearRow sy infl ir ac i bal st).ending_balance (stepStates st)
      constructor
      · intro hv
        obtain ⟨hlen, hall⟩ := ihT hv
        refine ⟨by simp [hlen], ?_⟩
        intro r hr
        rcases List.mem_cons.mp hr with h | h
        · rw [h]; exact hrowok
        · exact hall r h
      · intro hv
        obtain ⟨pre, last, heq, hlen, hpre, hlast⟩ := ihF hv
        refine ⟨yearRow sy infl ir ac i bal st :: pre, last, by simp [heq], ?_, ?_, hlast⟩
        · have : (yearRow sy infl ir ac i bal st ::
              (simGo sy infl ir ac mb m (i + 1)
                (yearRow sy infl ir ac i bal st).ending_balance (stepStates st)).2).length =
              (simGo sy infl ir ac mb m (i + 1)
                (yearRow sy infl ir ac i bal st).ending_balance (stepStates st)).2.length + 1 :=
            List.length_cons _ _
          rw [this]
          omega
        · intro r hr
          rcases List.mem_cons.mp hr with h | h
          · rw [h]; exact hrowok
          · exact hpre r h
    · rw [if_neg hok]
      constructor
      · intro hv; simp at hv
      · intro _
        refine ⟨[], yearRow sy infl ir ac i bal st, rfl, by simp, by simp, ?_⟩
        intro hc
        exact hok ((yearOk_iff mb _).mpr hc)

theorem bind_ok_inv {α β : Type} {e : Except PyErr α} {f : α → Except PyErr β} {b : β}
    (h : e >>= f = .ok b) : ∃ a, e = .ok a ∧ f a = .ok b := by
  cases e with
  | ok a => exact ⟨a, rfl, h⟩
  | error err =>
    have h2 : (Except.error err : Except PyErr β) = .ok b := h
    simp at h2

theorem buildOne_inv (c : CompInput) (s : CompState) (h : buildOne c = .ok s) :
    0 ≤ s.age ∧ s.age ≤ s.cycle ∧ 1 ≤ s.cycle ∧ 1 ≤ s.qty := by
  unfold buildOne at h
  obtain ⟨qty, _, h⟩ := bind_ok_inv h
  obtain ⟨ulv, _, h⟩ := bind_ok_inv h
  obtain ⟨ul, _, h⟩ := bind_ok_inv h
  obtain ⟨rlv, _, h⟩ := bind_ok_inv h
  obtain ⟨rl, _, h⟩ := bind_ok_inv h
  obtain ⟨cyc, _, h⟩ := bind_ok_inv h
  obtain ⟨cstv, _, h⟩ := bind_ok_inv h
  obtain ⟨cst, _, h⟩ := bind_ok_inv h
  obtain ⟨nm, _, h⟩ := bind_ok_inv h
  simp only [Except.ok.injEq] at h
  rw [← h]
  dsimp only
  omega

theorem build_inv : ∀ (cs : List CompInput) (st : List CompState),
    _build_component_state cs = .ok st → InvStates st := by
  intro cs
  induction cs with
  | nil =>
    intro st h
    have h2 : Except.ok ([] : List CompState) = .ok st := h
    injection h2 with h3
    intro c hc; rw [← h3] at hc; cases hc
  | cons c cs ih =>
    intro st h
    rw [_build_component_state] at h
    obtain ⟨s, hs, h⟩ := bind_ok_inv h
    obtain ⟨rest, hrest, h⟩ := bind_ok_inv h
    simp only [Except.ok.injEq] at h
    rw [← h]
    intro x hx
    rcases List.mem_cons.mp hx with h1 | h1
    · rw [h1]
      obtain ⟨a1, a2, a3, _⟩ := buildOne_inv c s hs
      exact ⟨a1, a2, a3⟩
    · exact ih rest hrest x h1

theorem inv_stepStates (st : List CompState) (h : InvStates st) :
    InvStates (stepStates st) := by
  intro c hc
  unfold stepStates advanceAges resetDue at hc
  simp only [List.map_map, List.mem_map] at hc
  obtain ⟨c0, hc0, hfc⟩ := hc
  obtain ⟨h1, h2, h3⟩ := h c0 hc0
  by_cases hdue : c0.cycle ≤ c0.age
  · simp only [Function.comp, if_pos hdue] at hfc
    rw [← hfc]
    dsimp only
    omega
  · simp only [Function.comp, if_neg hdue] at hfc
    rw [← hfc]
    dsimp only
    omega

theorem inv_iterate (st : List CompState) (h : InvStates st) (n : ℕ) :
    InvStates (stepStates^[n] st) := by
  induction n with
  | zero => simpa using h
  | succ m ih =>
    rw [Function.iterate_succ_apply']
    exact inv_stepStates _ ih

theorem yearRow_ending (sy : ℤ) (infl ir ac : ℚ) (i : ℕ) (bal : ℚ) (st : List CompState) :
    (yearRow sy infl ir ac i bal st).ending_balance =
      bal + ac + bal * ir - dueExpense ((1 + infl) ^ i) st := rfl

theorem yearRow_ffb (sy : ℤ) (infl ir ac : ℚ) (i : ℕ) (bal : ℚ) (st : List CompState) :
    (yearRow sy infl ir ac i bal st).fully_funded_balance = ffbOf ((1 + infl) ^ i) st := rfl

theorem simGo_mono (sy : ℤ) (infl ir mb a b : ℚ) (hr : -1 ≤ ir) (hab : a ≤ b) :
    ∀ (n i : ℕ) (balA balB : ℚ) (st : List CompState), balA ≤ balB →
      (simGo sy infl ir a mb n i balA st).1 = true →
      (simGo sy infl ir b mb n i balB st).1 = true := by
  intro n
  induction n with
  | zero => intro i balA balB st _ _; simp [simGo]
  | succ m ih =>
    intro i balA balB st hbal hA
    rw [simGo] at hA
    rw [simGo]
    have hend : (yearRow sy infl ir a i balA st).ending_balance ≤
        (yearRow sy infl ir b i balB st).ending_balance := by
      rw [yearRow_ending, yearRow_ending]
      have h1 : balA * (1 + ir) ≤ balB * (1 + ir) :=
        mul_le_mul_of_nonneg_right hbal (by linarith)
      nlinarith [h1]
    by_cases hokA : yearOk mb (yearRow sy infl ir a i balA st) = true
    · have hokB : yearOk mb (yearRow sy infl ir b i balB st) = true := by
        rw [yearOk_iff] at hokA ⊢
        obtain ⟨h1, h2⟩ := hokA
        have hffb : (yearRow sy infl ir b i balB st).fully_funded_balance =
            (yearRow sy infl ir a i balA st).fully_funded_balance := rfl
        constructor
        · intro hlt; exact h1 (lt_of_le_of_lt hend hlt)
        · intro hlt
          rw [hffb] at hlt
          exact h2 (lt_of_le_of_lt hend hlt)
      rw [if_pos hokA] at hA
      rw [if_pos hokB]
      exact ih (i + 1) _ _ (stepStates st) hend hA
    · rw [if_neg hokA] at hA
      simp at hA

/-- C5: the spec's monotonicity property fails for the interest rates the
spec admits.  With no components, zero inflation, zero starting balance,
zero minimum balance, a two-year horizon, and interest rate `-3`, the
simulation passes at contribution `0` but fails at the larger
contribution `1`: raising the contribution turned a passing run into a
failing one. -/
theorem C5_counterexample :
    ((0 : ℚ) < 1) ∧
    (okOf (_simulate 2024 2 0 (-3) 0 0 [] 0)).map Prod.fst = some true ∧
    (okOf (_simulate 2024 2 0 (-3) 0 1 [] 0)).map Prod.fst = some false := by
  refine ⟨by norm_num, ?_, ?_⟩ <;> with_unfolding_all decide

/-- C5 (amended): for fixed assumptions and components, if the
interest rate is at least `-1` (so that `1 + interest_rate` is
non-negative), contributions `a < b`, and the full-horizon simulation
passes at `a`, then it also passes at `b`.  Without the bound on the
interest rate the property is false (see the counterexample). -/
theorem C5_monotonicity (sy : ℤ) (h : ℕ) (infl ir sb mb a b : ℚ) (cs : List CompInput)
    (rows : List YearRow) (hr : -1 ≤ ir) (hab : a < b)
    (hA : _simulate sy h infl ir sb a cs mb = .ok (true, rows)) :
    ∃ rows', _simulate sy h infl ir sb b cs mb = .ok (true, rows') := by
  unfold _simulate at hA ⊢
  cases hb : _build_component_state cs with
  | error e =>
    rw [hb] at hA
    have h2 : (Except.error e : Except PyErr (Bool × List YearRow)) = .ok (true, rows) := hA
    simp at h2
  | ok st =>
    rw [hb] at hA
    have hA2 : simGo sy infl ir a mb h 0 sb st = (true, rows) := by
      have h2 : (Except.ok (simGo sy infl ir a mb h 0 sb st) :
          Except PyErr (Bool × List YearRow)) = .ok (true, rows) := hA
      injection h2
    have hv : (simGo sy infl ir a mb h 0 sb st).1 = true := by rw [hA2]
    have hvB := simGo_mono sy infl ir mb a b hr (le_of_lt hab) h 0 sb sb st le_rfl hv
    refine ⟨(simGo sy infl ir b mb h 0 sb st).2, ?_⟩
    have hp : simGo sy infl ir b mb h 0 sb st =
        (true, (simGo sy infl ir b mb h 0 sb st).2) := by
      rw [← hvB]
    show (Except.ok (simGo sy infl ir b mb h 0 sb st) : Except PyErr (Bool × List YearRow)) =
      .ok (true, (simGo sy infl ir b mb h 0 sb st).2)
    exact congrArg Except.ok hp

theorem simGo_nil (sy : ℤ) (infl ir ac : ℚ) (hir : -1 ≤ ir) (hac : 0 ≤ ac) :
    ∀ (n i : ℕ) (bal : ℚ), 0 ≤ bal →
      (simGo sy infl ir ac 0 n i bal []).1 = true ∧
      (simGo sy infl ir ac 0 n i bal []).2.length = n ∧
      ∀ r ∈ (simGo sy infl ir ac 0 n i bal []).2, 0 ≤ r.ending_balance := by
  intro n
  induction n with
  | zero =>
    intro i bal _
    refine ⟨rfl, rfl, ?_⟩
    intro r hr; simp [simGo] at hr
  | succ m ih =>
    intro i bal hbal
    have hend : 0 ≤ (yearRow sy infl ir ac i bal []).ending_balance := by
      rw [yearRow_ending]
      have hde : dueExpense ((1 + infl) ^ i) [] = 0 := rfl
      rw [hde]
      have h1 : 0 ≤ bal * (1 + ir) := mul_nonneg hbal (by linarith)
      nlinarith [h1]
    have hok : yearOk 0 (yearRow sy infl ir ac i bal []) = true := by
      rw [yearOk_iff]
      have htol : (0 : ℚ) - tol < 0 := by norm_num [tol]
      constructor
      · intro hlt; linarith
      · intro hlt
        have hffb : (yearRow sy infl ir ac i bal []).fully_funded_balance = 0 := rfl
        rw [hffb] at hlt
        linarith
    rw [simGo, if_pos hok]
    have hstep : stepStates ([] : List CompState) = [] := rfl
    rw [hstep]
    obtain ⟨ihv, ihlen, ihrows⟩ := ih (i + 1) (yearRow sy infl ir ac i bal []).ending_balance hend
    refine ⟨ihv, by simp [ihlen], ?_⟩
    intro r hr
    rcases List.mem_cons.mp hr with hcase | hcase
    · rw [hcase]; exact hend
    · exact ihrows r hcase

theorem bisect_zero_lo (sim : ℚ → Except PyErr (Bool × List YearRow))
    (hsim : ∀ c : ℚ, 0 ≤ c → sim c = .ok (true, simRows sim c)) :
    ∀ (n : ℕ) (hi best : ℚ) (rows : List YearRow) (tr : List (ℚ × Bool)), 0 < hi →
      ∃ tr', bisectLoop sim (n + 1) ⟨0, hi, best, rows, tr⟩ =
        .ok ⟨0, hi / 2 ^ (n + 1), hi / 2 ^ (n + 1), simRows sim (hi / 2 ^ (n + 1)), tr'⟩ := by
  intro n
  induction n with
  | zero =>
    intro hi best rows tr hhi
    have hmid : ((⟨0, hi, best, rows, tr⟩ : BisState).lo +
        (⟨0, hi, best, rows, tr⟩ : BisState).hi) / 2 = hi / 2 := by
      show ((0 : ℚ) + hi) / 2 = hi / 2
      rw [zero_add]
    have hstep := bisect_step sim 0 ⟨0, hi, best, rows, tr⟩ (hi / 2) hmid true
      (simRows sim (hi / 2)) (hsim _ (by positivity))
    refine ⟨tr ++ [(hi / 2, true)], ?_⟩
    rw [hstep, if_pos rfl, pow_one]
    rfl
  | succ k ih =>
    intro hi best rows tr hhi
    have hmid : ((⟨0, hi, best, rows, tr⟩ : BisState).lo +
        (⟨0, hi, best, rows, tr⟩ : BisState).hi) / 2 = hi / 2 := by
      show ((0 : ℚ) + hi) / 2 = hi / 2
      rw [zero_add]
    have hstep := bisect_step sim (k + 1) ⟨0, hi, best, rows, tr⟩ (hi / 2) hmid true
      (simRows sim (hi / 2)) (hsim _ (by positivity))
    obtain ⟨tr', htr⟩ := ih (hi / 2) (hi / 2) (simRows sim (hi / 2))
      (tr ++ [(hi / 2, true)]) (by positivity)
    refine ⟨tr', ?_⟩
    rw [hstep, if_pos rfl, htr]
    have harith : hi / 2 / 2 ^ (k + 1) = hi / 2 ^ (k + 1 + 1) := by
      rw [div_div, ← pow_succ']
    rw [harith]

/-- C8: the claim fails as stated for general assumptions.  With an empty
component list but `min_balance = 5` (and zero starting balance), the
solver returns a contribution of `5`, not `0`: the empty-component case
does not always yield a zero recommendation. -/
theorem C8_counterexample :
    (okOf (recommendFull 2024 1 0 0 0 [] 5)).map (fun r => r.best) = some 5 ∧
      (5 : ℚ) ≠ 0 := by
  constructor
  · with_unfolding_all decide
  · norm_num

/-- C8 (amended): with an empty component list, `min_balance = 0`, a
non-negative starting balance and an interest rate of at least `-1`,
`recommend` never raises and returns a contribution of `0` (after cent
rounding) together with a trivially passing row set covering the whole
horizon.  For other assumptions (e.g. a positive `min_balance`) the
returned contribution can be positive (see the counterexample). -/
theorem C8_empty_components (sy : ℤ) (h : ℕ) (infl ir sb : ℚ)
    (hh : 1 ≤ h) (hir : -1 ≤ ir) (hsb : 0 ≤ sb) :
    ∃ res, recommendFull sy h infl ir sb [] 0 = .ok res ∧
      res.best = 0 ∧ res.rows.length = h ∧ ∀ r ∈ res.rows, 0 ≤ r.ending_balance := by
  have hsimRows : ∀ c : ℚ, simRows (fun c => _simulate sy h infl ir sb c [] 0) c =
      (simGo sy infl ir c 0 h 0 sb []).2 := fun c => rfl
  have hsim : ∀ c : ℚ, 0 ≤ c →
      (fun c => _simulate sy h infl ir sb c [] 0) c =
        .ok (true, simRows (fun c => _simulate sy h infl ir sb c [] 0) c) := by
    intro c hc
    obtain ⟨hv, _, _⟩ := simGo_nil sy infl ir c hir hc h 0 sb hsb
    have hl : _simulate sy h infl ir sb c [] 0 =
        Except.ok (simGo sy infl ir c 0 h 0 sb []) := rfl
    show _simulate sy h infl ir sb c [] 0 = _
    rw [hl, hsimRows c]
    refine congrArg Except.ok ?_
    rw [← hv]
  have hsome : (okOf ((fun c => _simulate sy h infl ir sb c [] 0) 10000)).isSome = true := by
    rw [hsim 10000 (by norm_num)]
    rfl
  have hv10 : simVerdict (fun c => _simulate sy h infl ir sb c [] 0) 10000 = true := by
    unfold simVerdict
    rw [hsim 10000 (by norm_num)]
    rfl
  have hexp := expand_step_pass (fun c => _simulate sy h infl ir sb c [] 0) 19 10000 [] hsome hv10
  obtain ⟨tr2, hbis⟩ := bisect_zero_lo (fun c => _simulate sy h infl ir sb c [] 0) hsim
    49 10000 10000 [] [] (by norm_num)
  have heval := recommendFull_eq_of sy h infl ir sb [] 0 0 10000 10000 ([] ++ [(10000, true)])
    ⟨0, 10000 / 2 ^ (49 + 1), 10000 / 2 ^ (49 + 1),
      simRows (fun c => _simulate sy h infl ir sb c [] 0) (10000 / 2 ^ (49 + 1)), tr2⟩
    rfl (by norm_num) hexp hbis
  have hrnd : round2 (10000 / 2 ^ (49 + 1) : ℚ) = 0 := by with_unfolding_all decide
  obtain ⟨_, hlen, hrows⟩ := simGo_nil sy infl ir (10000 / 2 ^ (49 + 1) : ℚ) hir
    (by positivity) h 0 sb hsb
  refine ⟨_, heval, ?_, ?_, ?_⟩
  · dsimp only
    exact hrnd
  · dsimp only
    rw [List.length_map, hsimRows]
    exact hlen
  · dsimp only
    intro r hr
    rw [hsimRows] at hr
    obtain ⟨r0, hr0, hfr⟩ := List.mem_map.mp hr
    have hre : r.ending_balance = r0.ending_balance := by rw [← hfr]
    rw [hre]
    exact hrows r0 hr0

theorem recommendFull_inv (sy : ℤ) (h : ℕ) (infl ir sb : ℚ) (cs : List CompInput) (mb : ℚ)
    (res : RecResult) (hok : recommendFull sy h infl ir sb cs mb = .ok res) :
    ∃ bt hi1 etr s,
      baseTotal cs = .ok bt ∧
      expandHi (fun c => _simulate sy h infl ir sb c cs mb) 20 (max 5000 bt * 2) [] =
        .ok (hi1, etr) ∧
      bisectLoop (fun c => _simulate sy h infl ir sb c cs mb) 50 ⟨0, hi1, hi1, [], []⟩ =
        .ok s ∧
      res = ⟨round2 s.best,
             s.bestRows.map (fun r => { r with recommended_contribution := round2 s.best }),
             etr, s.tr⟩ := by
  unfold recommendFull at hok
  obtain ⟨bt, hbt, hok⟩ := bind_ok_inv hok
  obtain ⟨p, hexp, hok⟩ := bind_ok_inv hok
  obtain ⟨hi1, etr⟩ := p
  obtain ⟨s, hbis, hok⟩ := bind_ok_inv hok
  refine ⟨bt, hi1, etr, s, hbt, hexp, hbis, ?_⟩
  have h2 : Except.ok (⟨round2 s.best,
      s.bestRows.map (fun r => { r with recommended_contribution := round2 s.best }),
      etr, s.tr⟩ : RecResult) = .ok res := hok
  injection h2 with h3
  exact h3.symm

theorem expand_allfail (sim : ℚ → Except PyErr (Bool × List YearRow)) :
    ∀ (k : ℕ) (hi : ℚ) (tr : List (ℚ × Bool)) (hi2 : ℚ) (tr2 : List (ℚ × Bool)),
      expandHi sim k hi tr = .ok (hi2, tr2) → (∀ p ∈ tr2, p.2 = false) →
      hi2 = hi * 2 ^ k ∧ tr2 = tr ++ expFails hi k := by
  intro k
  induction k with
  | zero =>
    intro hi tr hi2 tr2 hok _
    have h2 : (Except.ok (hi, tr) : Except PyErr (ℚ × List (ℚ × Bool))) = .ok (hi2, tr2) := hok
    injection h2 with h3
    injection h3 with h4 h5
    refine ⟨by rw [← h4]; ring, by rw [← h5, expFails, List.append_nil]⟩
  | succ kk ih =>
    intro hi tr hi2 tr2 hok hfail
    rw [expandHi] at hok
    obtain ⟨r, _, hok⟩ := bind_ok_inv hok
    by_cases hr : r.1 = true
    · rw [if_pos hr] at hok
      have h2 : (Except.ok (hi, tr ++ [(hi, true)]) : Except PyErr (ℚ × List (ℚ × Bool))) =
          .ok (hi2, tr2) := hok
      injection h2 with h3
      injection h3 with h4 h5
      have hmem : (hi, true) ∈ tr2 := by rw [← h5]; simp
      have := hfail _ hmem
      simp at this
    · rw [if_neg hr] at hok
      obtain ⟨h1, h2⟩ := ih (hi * 2) (tr ++ [(hi, false)]) hi2 tr2 hok hfail
      constructor
      · rw [h1]; ring
      · rw [h2, expFails]
        simp

theorem expFails_getLast : ∀ (k : ℕ) (hi : ℚ),
    (expFails hi (k + 1)).getLast? = some (hi * 2 ^ k, false) := by
  intro k
  induction k with
  | zero => intro hi; simp [expFails]
  | succ kk ih =>
    intro hi
    show ((hi, false) :: expFails (hi * 2) (kk + 1)).getLast? = _
    rw [show expFails (hi * 2) (kk + 1) = (hi * 2, false) :: expFails (hi * 2 * 2) kk from rfl]
    rw [List.getLast?_cons_cons]
    rw [show ((hi * 2, false) :: expFails (hi * 2 * 2) kk) = expFails (hi * 2) (kk + 1) from rfl]
    rw [ih (hi * 2)]
    congr 1
    rw [Prod.mk.injEq]
    refine ⟨by ring, rfl⟩

theorem bisect_tr_extends (sim : ℚ → Except PyErr (Bool × List YearRow)) :
    ∀ (n : ℕ) (s s' : BisState), bisectLoop sim n s = .ok s' → ∃ t, s'.tr = s.tr ++ t := by
  intro n
  induction n with
  | zero =>
    intro s s' hok
    have h2 : (Except.ok s : Except PyErr BisState) = .ok s' := hok
    injection h2 with h3
    exact ⟨[], by rw [← h3, List.append_nil]⟩
  | succ m ih =>
    intro s s' hok
    rw [bisectLoop] at hok
    obtain ⟨r, _, hok⟩ := bind_ok_inv hok
    by_cases hv : r.1 = true
    · rw [if_pos hv] at hok
      obtain ⟨t, ht⟩ := ih _ _ hok
      refine ⟨((s.lo + s.hi) / 2, true) :: t, ?_⟩
      rw [ht]; simp
    · rw [if_neg hv] at hok
      obtain ⟨t, ht⟩ := ih _ _ hok
      refine ⟨((s.lo + s.hi) / 2, false) :: t, ?_⟩
      rw [ht]; simp

theorem bisect_allfail (sim : ℚ → Except PyErr (Bool × List YearRow)) :
    ∀ (n : ℕ) (s s' : BisState), bisectLoop sim n s = .ok s' →
      (∀ p ∈ s'.tr, p.2 = false) → s'.best = s.best ∧ s'.bestRows = s.bestRows := by
  intro n
  induction n with
  | zero =>
    intro s s' hok _
    have h2 : (Except.ok s : Except PyErr BisState) = .ok s' := hok
    injection h2 with h3
    rw [← h3]
    exact ⟨rfl, rfl⟩
  | succ m ih =>
    intro s s' hok hfail
    rw [bisectLoop] at hok
    obtain ⟨r, _, hok⟩ := bind_ok_inv hok
    by_cases hv : r.1 = true
    · rw [if_pos hv] at hok
      obtain ⟨t, ht⟩ := bisect_tr_extends sim m _ _ hok
      have hmem : ((s.lo + s.hi) / 2, true) ∈ s'.tr := by rw [ht]; simp
      have := hfail _ hmem
      simp at this
    · rw [if_neg hv] at hok
      have hres := ih ⟨(s.lo + s.hi) / 2, s.hi, s.best, s.bestRows,
        s.tr ++ [((s.lo + s.hi) / 2, false)]⟩ s' hok hfail
      exact hres

theorem roundHalfEven_ge_floor (x : ℚ) : ⌊x⌋ ≤ roundHalfEven x := by
  unfold roundHalfEven
  dsimp only
  split_ifs <;> omega

theorem round2_pos (x : ℚ) (hx : 1 ≤ x) : 0 < round2 x := by
  unfold round2
  have h1 : (100 : ℤ) ≤ ⌊x * 100⌋ := by
    rw [Int.le_floor]
    push_cast
    nlinarith
  have h2 := roundHalfEven_ge_floor (x * 100)
  have h3 : (0 : ℤ) < roundHalfEven (x * 100) := by omega
  have h4 : (0 : ℚ) < (roundHalfEven (x * 100) : ℚ) := by exact_mod_cast h3
  positivity

theorem _simulate_ok_inv (sy : ℤ) (h : ℕ) (infl ir sb ac mb : ℚ) (cs : List CompInput)
    (v : Bool) (rows : List YearRow)
    (hok : _simulate sy h infl ir sb ac cs mb = .ok (v, rows)) :
    ∃ st, _build_component_state cs = .ok st ∧
      simGo sy infl ir ac mb h 0 sb st = (v, rows) := by
  unfold _simulate at hok
  cases hb : _build_component_state cs with
  | error e =>
    rw [hb] at hok
    have h2 : (Except.error e : Except PyErr (Bool × List YearRow)) = .ok (v, rows) := hok
    simp at h2
  | ok st =>
    rw [hb] at hok
    have h2 : (Except.ok (simGo sy infl ir ac mb h 0 sb st) :
        Except PyErr (Bool × List YearRow)) = .ok (v, rows) := hok
    injection h2 with h3
    exact ⟨st, rfl, h3⟩

theorem RowFact_update (r : YearRow) (x : ℚ) (hf : RowFact r) :
    RowFact { r with recommended_contribution := x } := hf

theorem bisect_rows_pred (sim : ℚ → Except PyErr (Bool × List YearRow)) (P : YearRow → Prop)
    (hsim : ∀ (c : ℚ) (p : Bool × List YearRow), sim c = .ok p → ∀ r ∈ p.2, P r) :
    ∀ (n : ℕ) (s s' : BisState), (∀ r ∈ s.bestRows, P r) → bisectLoop sim n s = .ok s' →
      ∀ r ∈ s'.bestRows, P r := by
  intro n
  induction n with
  | zero =>
    intro s s' hs hok
    have h2 : (Except.ok s : Except PyErr BisState) = .ok s' := hok
    injection h2 with h3
    rw [← h3]
    exact hs
  | succ m ih =>
    intro s s' hs hok
    rw [bisectLoop] at hok
    obtain ⟨r, hr, hok⟩ := bind_ok_inv hok
    by_cases hv : r.1 = true
    · rw [if_pos hv] at hok
      exact ih _ _ (hsim _ _ hr) hok
    · rw [if_neg hv] at hok
      exact ih ⟨(s.lo + s.hi) / 2, s.hi, s.best, s.bestRows,
        s.tr ++ [((s.lo + s.hi) / 2, false)]⟩ s' hs hok

theorem _simulate_rowfacts (sy : ℤ) (h : ℕ) (infl ir sb ac mb : ℚ) (cs : List CompInput)
    (p : Bool × List YearRow) (hok : _simulate sy h infl ir sb ac cs mb = .ok p) :
    ∀ r ∈ p.2, RowFact r := by
  obtain ⟨st, _, hgo⟩ := _simulate_ok_inv sy h infl ir sb ac mb cs p.1 p.2
    (by rw [hok])
  intro r hr
  have hr2 : r ∈ (simGo sy infl ir ac mb h 0 sb st).2 := by rw [hgo]; exact hr
  exact simGo_rowfacts sy infl ir ac mb h 0 sb st r hr2

/-- C3: every row produced by the full-horizon simulation, and every row
returned by the solver, satisfies the exact balance recurrence
`ending_balance = starting_balance + contributions + interest_earned -
expenses`, with no tolerance. -/
theorem C3_balance_recurrence (sy : ℤ) (h : ℕ) (infl ir sb ac mb : ℚ) (cs : List CompInput) :
    (∀ (v : Bool) (rows : List YearRow), _simulate sy h infl ir sb ac cs mb = .ok (v, rows) →
      ∀ r ∈ rows, r.ending_balance =
        r.starting_balance + r.contributions + r.interest_earned - r.expenses) ∧
    (∀ res : RecResult, recommendFull sy h infl ir sb cs mb = .ok res →
      ∀ r ∈ res.rows, r.ending_balance =
        r.starting_balance + r.contributions + r.interest_earned - r.expenses) := by
  constructor
  · intro v rows hok r hr
    exact (_simulate_rowfacts sy h infl ir sb ac mb cs (v, rows) hok r hr).1
  · intro res hok r hr
    obtain ⟨bt, hi1, etr, s, _, _, hbisE, hres⟩ :=
      recommendFull_inv sy h infl ir sb cs mb res hok
    have hbase : ∀ r0 ∈ (⟨0, hi1, hi1, [], []⟩ : BisState).bestRows, RowFact r0 := by
      intro r0 hr0; cases hr0
    have hrows : ∀ r0 ∈ s.bestRows, RowFact r0 :=
      bisect_rows_pred _ RowFact
        (fun c p hp => _simulate_rowfacts sy h infl ir sb c mb cs p hp) 50 _ s hbase hbisE
    have hmem : r ∈ s.bestRows.map
        (fun r => { r with recommended_contribution := round2 s.best }) := by
      rw [hres] at hr; exact hr
    obtain ⟨r0, hr0, hfr⟩ := List.mem_map.mp hmem
    rw [← hfr]
    exact (RowFact_update r0 _ (hrows r0 hr0)).1

/-- C4: the full-horizon simulation stops at the first violating year.
On a `true` verdict it returns exactly `horizon_years` rows, all passing
the `min_balance`/fully-funded checks (with the `1e-9` tolerance); on a
`false` verdict it returns the rows up to and including the first
violating year: all earlier rows pass, the final row violates, and no
rows for later years are produced. -/
theorem C4_early_exit (sy : ℤ) (h : ℕ) (infl ir sb ac mb : ℚ) (cs : List CompInput)
    (v : Bool) (rows : List YearRow)
    (hok : _simulate sy h infl ir sb ac cs mb = .ok (v, rows)) :
    (v = true → rows.length = h ∧ ∀ r ∈ rows, RowOk mb r) ∧
    (v = false → ∃ pre last, rows = pre ++ [last] ∧ rows.length ≤ h ∧
      (∀ r ∈ pre, RowOk mb r) ∧ ¬ RowOk mb last) := by
  obtain ⟨st, _, hgo⟩ := _simulate_ok_inv sy h infl ir sb ac mb cs v rows hok
  obtain ⟨hT, hF⟩ := simGo_verdict sy infl ir ac mb h 0 sb st
  rw [hgo] at hT hF
  exact ⟨hT, hF⟩

/-- C7: in every row produced by the simulation, `percent_funded` equals
`ending_balance / fully_funded_balance` floored at 0 when the fully
funded balance is positive, and equals 0 otherwise; it is never
negative, and the division is only taken under the positivity guard. -/
theorem C7_percent_funded (sy : ℤ) (h : ℕ) (infl ir sb ac mb : ℚ) (cs : List CompInput)
    (v : Bool) (rows : List YearRow)
    (hok : _simulate sy h infl ir sb ac cs mb = .ok (v, rows)) :
    ∀ r ∈ rows,
      r.percent_funded = (if 0 < r.fully_funded_balance
        then max 0 (r.ending_balance / r.fully_funded_balance) else 0) ∧
      0 ≤ r.percent_funded := by
  intro r hr
  have hf := (_simulate_rowfacts sy h infl ir sb ac mb cs (v, rows) hok r hr).2
  refine ⟨hf, ?_⟩
  rw [hf]
  split_ifs
  · exact le_max_left 0 _
  · exact le_refl 0

/-- C9: throughout every full-horizon simulation, each component's age
stays within `[0, cycle]`: the normalizer initializes the age as
`clamp(cycle - remaining_life, 0, cycle)`, and the yearly state evolution
(replacement reset followed by the universal end-of-year age advance,
`stepStates`) preserves the bound, so after any number of simulated years
every component satisfies `0 ≤ age ≤ cycle`. -/
theorem C9_age_invariant (cs : List CompInput) (st : List CompState)
    (hb : _build_component_state cs = .ok st) (n : ℕ) :
    ∀ c ∈ stepStates^[n] st, 0 ≤ c.age ∧ c.age ≤ c.cycle := by
  have hinv := inv_iterate st (build_inv cs st hb) n
  intro c hc
  obtain ⟨h1, h2, _⟩ := hinv c hc
  exact ⟨h1, h2⟩

/-- C6: the claim fails as stated.  On a concrete run where every
bracket-expansion attempt and every bisection midpoint fails (one cheap
component, `min_balance = 10^15`), the solver returns `10485760000`,
while the largest `hi` at which a simulation was actually tried is the
last expansion attempt `5242880000` (which equals its own cent
rounding): the returned value is double the largest tried `hi` and was
itself never simulated during expansion. -/
theorem C6_counterexample :
    (okOf (recommendFull 2024 1 0 0 0 [comp100] 1000000000000000)).map
        (fun r => (r.best, r.expTried.getLast?)) =
      some (10485760000, some (5242880000, false)) ∧
    round2 5242880000 = 5242880000 ∧ (10485760000 : ℚ) ≠ (5242880000 : ℚ) := by
  refine ⟨?_, ?_, ?_⟩
  · rw [evalB]
    have hb : round2 sB50.best = 10485760000 :=
      qeq_of_le _ _ (by with_unfolding_all decide) (by with_unfolding_all decide)
    show some (round2 sB50.best, teB20.getLast?) = _
    rw [hb]
    rfl
  · exact qeq_of_le _ _ (by with_unfolding_all decide) (by with_unfolding_all decide)
  · norm_num

/-- C6 (amended): when every bracket-expansion attempt and every
bisection midpoint fails, `recommend` neither raises nor loops; it
returns, rounded to cents, the final doubled ceiling — twice the largest
`hi` at which a simulation was actually tried (the last, failing,
expansion attempt) — together with an empty row list. -/
theorem C6_bracket_exhaustion (sy : ℤ) (h : ℕ) (infl ir sb mb : ℚ) (cs : List CompInput)
    (res : RecResult) (hok : recommendFull sy h infl ir sb cs mb = .ok res)
    (hexp : ∀ p ∈ res.expTried, p.2 = false)
    (hbis : ∀ p ∈ res.bisTried, p.2 = false) :
    ∃ hLast, res.expTried.getLast? = some (hLast, false) ∧
      res.best = round2 (2 * hLast) ∧ res.rows = [] := by
  obtain ⟨bt, hi1, etr, s, hbt, hexpE, hbisE, hres⟩ :=
    recommendFull_inv sy h infl ir sb cs mb res hok
  have hetr : res.expTried = etr := by rw [hres]
  have hstr : res.bisTried = s.tr := by rw [hres]
  rw [hetr] at hexp
  rw [hstr] at hbis
  obtain ⟨hhi1, hetr2⟩ := expand_allfail _ 20 (max 5000 bt * 2) [] hi1 etr hexpE hexp
  obtain ⟨hbest, hrows⟩ := bisect_allfail _ 50 _ s hbisE hbis
  refine ⟨max 5000 bt * 2 * 2 ^ 19, ?_, ?_, ?_⟩
  · rw [hetr, hetr2]
    simp only [List.nil_append]
    exact expFails_getLast 19 _
  · have h1 : res.best = round2 s.best := by rw [hres]
    rw [h1, hbest, hhi1]
    show round2 (max 5000 bt * 2 * 2 ^ 20) = round2 (2 * (max 5000 bt * 2 * 2 ^ 19))
    congr 1
    ring
  · have h1 : res.rows = s.bestRows.map
        (fun r => { r with recommended_contribution := round2 s.best }) := by rw [hres]
    rw [h1, hrows]
    rfl

/-- C10: when no simulation run by the solver passes (all expansion
attempts and all bisection midpoints fail), `recommend` returns an empty
yearly-rows list paired with a strictly positive contribution — so a
caller can receive a non-zero recommendation with zero rows even for a
non-empty component list. -/
theorem C10_no_pass_rows_empty (sy : ℤ) (h : ℕ) (infl ir sb mb : ℚ) (cs : List CompInput)
    (res : RecResult) (hok : recommendFull sy h infl ir sb cs mb = .ok res)
    (hne : cs ≠ [])
    (hexp : ∀ p ∈ res.expTried, p.2 = false)
    (hbis : ∀ p ∈ res.bisTried, p.2 = false) :
    res.rows = [] ∧ 0 < res.best := by
  obtain ⟨bt, hi1, etr, s, hbt, hexpE, hbisE, hres⟩ :=
    recommendFull_inv sy h infl ir sb cs mb res hok
  have hetr : res.expTried = etr := by rw [hres]
  have hstr : res.bisTried = s.tr := by rw [hres]
  rw [hetr] at hexp
  rw [hstr] at hbis
  obtain ⟨hhi1, _⟩ := expand_allfail _ 20 (max 5000 bt * 2) [] hi1 etr hexpE hexp
  obtain ⟨hbest, hrows⟩ := bisect_allfail _ 50 _ s hbisE hbis
  constructor
  · have h1 : res.rows = s.bestRows.map
        (fun r => { r with recommended_contribution := round2 s.best }) := by rw [hres]
    rw [h1, hrows]
    rfl
  · have h1 : res.best = round2 s.best := by rw [hres]
    rw [h1, hbest, hhi1]
    show 0 < round2 (max 5000 bt * 2 * 2 ^ 20)
    refine round2_pos _ ?_
    have hm : (5000 : ℚ) ≤ max 5000 bt := le_max_left _ _
    have hp : (0 : ℚ) < 2 ^ 20 := by positivity
    nlinarith

/-- C1: the claim fails on the code.  On the spec's reference scenario
the solver returns 50000.00, not approximately `100000 / 6` (about
16666.67): the binding constraint is the year-0 fully-funded-balance
requirement of 50000, which the code enforces in addition to the
`min_balance` floor the claim reasons about.  The returned value exceeds
`100000 / 6` by more than 30000. -/
theorem C1_counterexample :
    (okOf (recommendFull 2024 10 0 0 0 [scenarioComp] 0)).map (fun r => r.best) =
      some 50000 ∧
    100000 / 6 + 30000 < (50000 : ℚ) := by
  constructor
  · rw [evalA]
    have hb : round2 sA50.best = 50000 :=
      qeq_of_le _ _ (by with_unfolding_all decide) (by with_unfolding_all decide)
    show some (round2 sA50.best) = some 50000
    rw [hb]
  · norm_num

/-- C1 (amended): on the spec's reference scenario the contribution the
solver returns is exactly 50000.00.  The balance stays non-negative in
every returned row (in particular through the year-5 expense of 100000),
the simulation passes at 50000, and — to within the solver's cent-level
precision — 50000 is the smallest passing value: 49999.99 already fails.
The minimum is set by the year-0 fully-funded-balance constraint
(FFB = 50000), not by bare non-negativity, so the value is 50000 rather
than the claim's `100000 / 6`. -/
theorem C1_reference_scenario :
    (∃ rows, recommendFull 2024 10 0 0 0 [scenarioComp] 0 =
        .ok ⟨50000, rows, [] ++ [(200000, true)], sA50.tr⟩ ∧
        ∀ r ∈ rows, 0 ≤ r.ending_balance) ∧
    (okOf (_simulate 2024 10 0 0 0 50000 [scenarioComp] 0)).map Prod.fst = some true ∧
    (okOf (_simulate 2024 10 0 0 0 (4999999 / 100) [scenarioComp] 0)).map Prod.fst =
      some false := by
  refine ⟨?_, by with_unfolding_all decide, by with_unfolding_all decide⟩
  have hb : round2 sA50.best = 50000 :=
    qeq_of_le _ _ (by with_unfolding_all decide) (by with_unfolding_all decide)
  refine ⟨sA50.bestRows.map (fun r => { r with recommended_contribution := (50000 : ℚ) }), ?_, ?_⟩
  · have he := evalA
    rw [hb] at he
    exact he
  · have hall : (sA50.bestRows.map
        (fun r => { r with recommended_contribution := (50000 : ℚ) })).all
        (fun r => decide (0 ≤ r.ending_balance)) = true := by
      with_unfolding_all decide
    intro r hr
    exact of_decide_eq_true (List.all_eq_true.mp hall r hr)

theorem bind_error_inv {α β : Type} {e : Except PyErr α} {f : α → Except PyErr β} {b : PyErr}
    (h : e >>= f = .error b) : e = .error b ∨ ∃ a, e = .ok a ∧ f a = .error b := by
  cases e with
  | ok a => exact Or.inr ⟨a, rfl, h⟩
  | error err =>
    left
    have h2 : (Except.error err : Except PyErr β) = .error b := h
    injection h2 with h3
    rw [h3]

theorem pyIntOf_err (v : PyVal) (e : PyErr) (h : pyIntOf v = .error e) : e = .valueError := by
  cases v with
  | num q =>
    have h2 : (Except.ok (pyTrunc q) : Except PyErr ℤ) = .error e := h
    simp at h2
  | nonnum t =>
    have h2 : (Except.error PyErr.valueError : Except PyErr ℤ) = .error e := h
    injection h2 with h3
    rw [← h3]

theorem pyFloatOf_err (v : PyVal) (e : PyErr) (h : pyFloatOf v = .error e) : e = .valueError := by
  cases v with
  | num q =>
    have h2 : (Except.ok q : Except PyErr ℚ) = .error e := h
    simp at h2
  | nonnum t =>
    have h2 : (Except.error PyErr.valueError : Except PyErr ℚ) = .error e := h
    injection h2 with h3
    rw [← h3]

theorem pyGet_err (f : PyField) (e : PyErr) (h : pyGet f = .error e) : e = .keyError := by
  cases f with
  | none =>
    have h2 : (Except.error PyErr.keyError : Except PyErr PyVal) = .error e := h
    injection h2 with h3
    rw [← h3]
  | some v =>
    have h2 : (Except.ok v : Except PyErr PyVal) = .error e := h
    simp at h2

theorem buildOne_err (c : CompInput) (e : PyErr) (h : buildOne c = .error e) :
    e = .keyError ∨ e = .valueError := by
  unfold buildOne at h
  rcases bind_error_inv h with h | ⟨_, _, h⟩
  · exact Or.inr (pyIntOf_err _ _ h)
  rcases bind_error_inv h with h | ⟨_, _, h⟩
  · exact Or.inl (pyGet_err _ _ h)
  rcases bind_error_inv h with h | ⟨_, _, h⟩
  · exact Or.inr (pyIntOf_err _ _ h)
  rcases bind_error_inv h with h | ⟨_, _, h⟩
  · exact Or.inl (pyGet_err _ _ h)
  rcases bind_error_inv h with h | ⟨_, _, h⟩
  · exact Or.inr (pyIntOf_err _ _ h)
  rcases bind_error_inv h with h | ⟨_, _, h⟩
  · exact Or.inr (pyIntOf_err _ _ h)
  rcases bind_error_inv h with h | ⟨_, _, h⟩
  · exact Or.inl (pyGet_err _ _ h)
  rcases bind_error_inv h with h | ⟨_, _, h⟩
  · exact Or.inr (pyFloatOf_err _ _ h)
  rcases bind_error_inv h with h | ⟨_, _, h⟩
  · exact Or.inl (pyGet_err _ _ h)
  · have h2 : (Except.ok _ : Except PyErr CompState) = .error e := h
    simp at h2

theorem build_err : ∀ (cs : List CompInput) (e : PyErr),
    _build_component_state cs = .error e → e = .keyError ∨ e = .valueError := by
  intro cs
  induction cs with
  | nil =>
    intro e h
    have h2 : (Except.ok ([] : List CompState) : Except PyErr (List CompState)) = .error e := h
    simp at h2
  | cons c cs ih =>
    intro e h
    rw [_build_component_state] at h
    rcases bind_error_inv h with h | ⟨s, _, h⟩
    · exact buildOne_err c e h
    rcases bind_error_inv h with h | ⟨rest, _, h⟩
    · exact ih e h
    · have h2 : (Except.ok _ : Except PyErr (List CompState)) = .error e := h
      simp at h2

theorem pyTrunc_intCast (n : ℤ) : pyTrunc (n : ℚ) = n := by
  unfold pyTrunc
  rw [Rat.num_intCast, Rat.den_intCast]
  simp

theorem pyIntOf_num (x : ℚ) : pyIntOf (.num x) = .ok (pyTrunc x) := rfl

theorem buildOne_toInput_aux (nm : PyVal) (qf : Option ℚ) (ulq rlq : ℚ) (cyf : Option ℚ)
    (cost : ℚ) (q cy : ℤ)
    (hq : pyIntOf (pyOr (some ((qf.map PyVal.num).getD (.num 1))) (.num 1)) = .ok q)
    (hcy : pyIntOf (pyOr (cyf.map PyVal.num) (.num ((pyTrunc ulq : ℤ) : ℚ))) = .ok cy) :
    buildOne (toInput ⟨nm, qf, ulq, rlq, cyf, cost⟩) =
      .ok { name := nm, qty := max 1 q, cycle := max 1 cy,
            age := max 0 (min (max 1 cy) (max 1 cy - max 0 (pyTrunc rlq))),
            cost_today := cost } := by
  dsimp only [buildOne, toInput, pyGet, pyIntOf_num, pyFloatOf, exceptBind_ok]
  rw [hq]
  dsimp only [exceptBind_ok]
  rw [hcy]
  rfl

set_option maxHeartbeats 1600000 in
theorem buildOne_toInput (w : WFComp) : buildOne (toInput w) = .ok (normWF w) := by
  rcases w with ⟨nm, qf, ulq, rlq, cyf, cost⟩
  cases qf with
  | none =>
    cases cyf with
    | none =>
      rw [buildOne_toInput_aux nm none ulq rlq none cost (pyTrunc 1) (pyTrunc ulq)
        (by rfl) (by simp [pyOr, pyIntOf, pyTrunc_intCast])]
      simp [normWF]
    | some cv =>
      by_cases hcv : cv = 0
      · subst hcv
        rw [buildOne_toInput_aux nm none ulq rlq (some 0) cost (pyTrunc 1) (pyTrunc ulq)
          (by rfl) (by simp [pyOr, pyTruthy, pyIntOf, pyTrunc_intCast])]
        simp [normWF]
      · rw [buildOne_toInput_aux nm none ulq rlq (some cv) cost (pyTrunc 1) (pyTrunc cv)
          (by rfl) (by simp [pyOr, pyTruthy, pyIntOf, hcv])]
        simp [normWF, hcv]
  | some qv =>
    by_cases hqv : qv = 0
    · subst hqv
      cases cyf with
      | none =>
        rw [buildOne_toInput_aux nm (some 0) ulq rlq none cost (pyTrunc 1) (pyTrunc ulq)
          (by rfl) (by simp [pyOr, pyIntOf, pyTrunc_intCast])]
        simp [normWF]
      | some cv =>
        by_cases hcv : cv = 0
        · subst hcv
          rw [buildOne_toInput_aux nm (some 0) ulq rlq (some 0) cost (pyTrunc 1) (pyTrunc ulq)
            (by rfl) (by simp [pyOr, pyTruthy, pyIntOf, pyTrunc_intCast])]
          simp [normWF]
        · rw [buildOne_toInput_aux nm (some 0) ulq rlq (some cv) cost (pyTrunc 1) (pyTrunc cv)
            (by rfl) (by simp [pyOr, pyTruthy, pyIntOf, hcv])]
          simp [normWF, hcv]
    · cases cyf with
      | none =>
        rw [buildOne_toInput_aux nm (some qv) ulq rlq none cost (pyTrunc qv) (pyTrunc ulq)
          (by simp [pyOr, pyTruthy, pyIntOf, hqv]) (by simp [pyOr, pyIntOf, pyTrunc_intCast])]
        simp [normWF, hqv]
      | some cv =>
        by_cases hcv : cv = 0
        · subst hcv
          rw [buildOne_toInput_aux nm (some qv) ulq rlq (some 0) cost (pyTrunc qv) (pyTrunc ulq)
            (by simp [pyOr, pyTruthy, pyIntOf, hqv]) (by simp [pyOr, pyTruthy, pyIntOf, pyTrunc_intCast])]
          simp [normWF, hqv]
        · rw [buildOne_toInput_aux nm (some qv) ulq rlq (some cv) cost (pyTrunc qv) (pyTrunc cv)
            (by simp [pyOr, pyTruthy, pyIntOf, hqv]) (by simp [pyOr, pyTruthy, pyIntOf, hcv])]
          simp [normWF, hqv, hcv]

theorem build_toInput : ∀ ws : List WFComp,
    _build_component_state (ws.map toInput) = .ok (ws.map normWF) := by
  intro ws
  induction ws with
  | nil => rfl
  | cons w ws ih =>
    show _build_component_state (toInput w :: ws.map toInput) = _
    rw [_build_component_state, buildOne_toInput, exceptBind_ok, ih, exceptBind_ok]
    rfl

theorem normWF_clamps (w : WFComp) : 1 ≤ (normWF w).qty ∧ 1 ≤ (normWF w).cycle ∧
    0 ≤ (normWF w).age ∧ (normWF w).age ≤ (normWF w).cycle := by
  dsimp only [normWF]
  omega

/-- C2 counterexample: a component whose required `useful_life_years` field is
missing makes `_build_component_state` fail with `KeyError`, not with the
`InvalidComponentError` the specification names (no such exception class exists
anywhere in the program). -/
theorem C2_counterexample :
    _build_component_state [⟨some (.nonnum true), none, none, some (.num 5), none,
      some (.num 100)⟩] = .error PyErr.keyError ∧
    PyErr.keyError ≠ PyErr.invalidComponentError :=
  ⟨by rfl, by decide⟩

/-- C2 (amended): the normalizer `_build_component_state` fails with `KeyError`
(missing field) or `ValueError` (non-numeric field) — never with an
`InvalidComponentError`, which does not exist in the program — and on
well-formed input it is a pure total function applying the defaults
(`quantity` defaults to 1, `cycle_years` to the truncated `useful_life_years`,
falsy `0` values also fall through to the defaults) and the clamps
(`cycle` floored at 1, `quantity` at 1, age clamped into `[0, cycle]`). -/
theorem C2_normalizer :
    (∀ (cs : List CompInput) (e : PyErr), _build_component_state cs = .error e →
      (e = PyErr.keyError ∨ e = PyErr.valueError) ∧ e ≠ PyErr.invalidComponentError) ∧
    (∀ ws : List WFComp, _build_component_state (ws.map toInput) = .ok (ws.map normWF)) ∧
    (∀ w : WFComp, 1 ≤ (normWF w).qty ∧ 1 ≤ (normWF w).cycle ∧
      0 ≤ (normWF w).age ∧ (normWF w).age ≤ (normWF w).cycle) ∧
    (∀ (c : CompInput) (cs : List CompInput), c.quantity = none →
      c.useful_life_years = none → _build_component_state (c :: cs) = .error PyErr.keyError) ∧
    (∀ (c : CompInput) (cs : List CompInput) (t : Bool), c.quantity = none →
      c.useful_life_years = some (.nonnum t) →
      _build_component_state (c :: cs) = .error PyErr.valueError) := by
  refine ⟨?_, build_toInput, normWF_clamps, ?_, ?_⟩
  · intro cs e h
    rcases build_err cs e h with h1 | h1
    · subst h1
      exact ⟨Or.inl rfl, by decide⟩
    · subst h1
      exact ⟨Or.inr rfl, by decide⟩
  · intro c cs hq hu
    have hb : buildOne c = .error PyErr.keyError := by
      unfold buildOne
      rw [hq, hu]
      rfl
    rw [_build_component_state, hb]
    rfl
  · intro c cs t hq hu
    have hb : buildOne c = .error PyErr.valueError := by
      unfold buildOne
      rw [hq, hu]
      rfl
    rw [_build_component_state, hb]
    rfl

theorem C2_normalizer_witness :
    ((PyErr.keyError = PyErr.keyError ∨ PyErr.keyError = PyErr.valueError) ∧
      PyErr.keyError ≠ PyErr.invalidComponentError) ∧
    _build_component_state [toInput ⟨.nonnum true, none, 10, 5, none, 100⟩] =
      .ok [normWF ⟨.nonnum true, none, 10, 5, none, 100⟩] ∧
    _build_component_state [⟨some (.nonnum false), none, none, some (.num 5), none,
      some (.num 100)⟩] = .error PyErr.keyError :=
  ⟨C2_normalizer.1 [⟨some (.nonnum false), none, none, some (.num 5), none,
      some (.num 100)⟩] PyErr.keyError (by rfl),
   C2_normalizer.2.1 [⟨.nonnum true, none, 10, 5, none, 100⟩],
   C2_normalizer.2.2.2.1 ⟨some (.nonnum false), none, none, some (.num 5), none,
      some (.num 100)⟩ [] rfl rfl⟩

theorem C3_balance_recurrence_witness :
    (⟨2024, 0, 7, 7, 0, 0, 7, 0, 0⟩ : YearRow).ending_balance =
      (⟨2024, 0, 7, 7, 0, 0, 7, 0, 0⟩ : YearRow).starting_balance +
      (⟨2024, 0, 7, 7, 0, 0, 7, 0, 0⟩ : YearRow).contributions +
      (⟨2024, 0, 7, 7, 0, 0, 7, 0, 0⟩ : YearRow).interest_earned -
      (⟨2024, 0, 7, 7, 0, 0, 7, 0, 0⟩ : YearRow).expenses :=
  (C3_balance_recurrence 2024 1 0 0 0 7 0 []).1 true [⟨2024, 0, 7, 7, 0, 0, 7, 0, 0⟩]
    (by with_unfolding_all rfl) _ (by simp)

theorem C4_early_exit_witness :
    ((okOf (_simulate 2024 2 0 0 0 3 [] 0)).getD (true, [])).2.length = 2 :=
  ((C4_early_exit 2024 2 0 0 0 3 0 [] true
      ((okOf (_simulate 2024 2 0 0 0 3 [] 0)).getD (true, [])).2
      (by with_unfolding_all rfl)).1 rfl).1

theorem C5_monotonicity_witness :
    ((-1 : ℚ) ≤ 0) ∧ ((0 : ℚ) < 1) ∧
    (∃ rows', _simulate 2024 2 0 0 0 1 [] 0 = .ok (true, rows')) :=
  ⟨by norm_num, by norm_num,
   C5_monotonicity 2024 2 0 0 0 0 0 1 []
     ((okOf (_simulate 2024 2 0 0 0 0 [] 0)).getD (true, [])).2
     (by norm_num) (by norm_num) (by with_unfolding_all rfl)⟩

theorem C6_bracket_exhaustion_witness :
    ∃ hLast, (RecResult.mk (round2 sB50.best)
        (sB50.bestRows.map (fun r => { r with recommended_contribution := round2 sB50.best }))
        teB20 sB50.tr).expTried.getLast? = some (hLast, false) ∧
      (RecResult.mk (round2 sB50.best)
        (sB50.bestRows.map (fun r => { r with recommended_contribution := round2 sB50.best }))
        teB20 sB50.tr).best = round2 (2 * hLast) ∧
      (RecResult.mk (round2 sB50.best)
        (sB50.bestRows.map (fun r => { r with recommended_contribution := round2 sB50.best }))
        teB20 sB50.tr).rows = [] :=
  C6_bracket_exhaustion 2024 1 0 0 0 1000000000000000 [comp100] _ evalB
    (by with_unfolding_all decide) (by with_unfolding_all decide)

theorem C7_percent_funded_witness :
    (⟨2024, 0, 9, 9, 0, 0, 9, 0, 0⟩ : YearRow).percent_funded =
      (if 0 < (⟨2024, 0, 9, 9, 0, 0, 9, 0, 0⟩ : YearRow).fully_funded_balance
        then max 0 ((⟨2024, 0, 9, 9, 0, 0, 9, 0, 0⟩ : YearRow).ending_balance /
          (⟨2024, 0, 9, 9, 0, 0, 9, 0, 0⟩ : YearRow).fully_funded_balance) else 0) ∧
    (0 : ℚ) ≤ (⟨2024, 0, 9, 9, 0, 0, 9, 0, 0⟩ : YearRow).percent_funded :=
  C7_percent_funded 2024 1 0 0 0 9 0 [] true [⟨2024, 0, 9, 9, 0, 0, 9, 0, 0⟩]
    (by with_unfolding_all rfl) _ (by simp)

theorem C8_empty_components_witness :
    (1 ≤ 1) ∧ ((-1 : ℚ) ≤ 0) ∧ ((0 : ℚ) ≤ 0) ∧
    (∃ res, recommendFull 2024 1 0 0 0 [] 0 = .ok res ∧ res.best = 0 ∧
      res.rows.length = 1 ∧ ∀ r ∈ res.rows, 0 ≤ r.ending_balance) :=
  ⟨le_refl 1, by norm_num, le_refl 0,
   C8_empty_components 2024 1 0 0 0 (le_refl 1) (by norm_num) (le_refl 0)⟩

theorem C9_age_invariant_witness :
    (0 : ℤ) ≤ (⟨PyVal.nonnum true, 1, 10, 8, 100000⟩ : CompState).age ∧
      (⟨PyVal.nonnum true, 1, 10, 8, 100000⟩ : CompState).age ≤
      (⟨PyVal.nonnum true, 1, 10, 8, 100000⟩ : CompState).cycle :=
  C9_age_invariant [scenarioComp] [⟨PyVal.nonnum true, 1, 10, 5, 100000⟩]
    (by with_unfolding_all rfl) 3 _
    (by
      have h3 : stepStates^[3] [(⟨PyVal.nonnum true, 1, 10, 5, 100000⟩ : CompState)] =
          [⟨PyVal.nonnum true, 1, 10, 8, 100000⟩] := by with_unfolding_all rfl
      rw [h3]
      exact List.mem_singleton.mpr rfl)

theorem C10_no_pass_rows_empty_witness :
    (RecResult.mk (round2 sB50.best)
        (sB50.bestRows.map (fun r => { r with recommended_contribution := round2 sB50.best }))
        teB20 sB50.tr).rows = [] ∧
      0 < (RecResult.mk (round2 sB50.best)
        (sB50.bestRows.map (fun r => { r with recommended_contribution := round2 sB50.best }))
        teB20 sB50.tr).best :=
  C10_no_pass_rows_empty 2024 1 0 0 0 1000000000000000 [comp100] _ evalB
    (by simp) (by with_unfolding_all decide) (by with_unfolding_all decide)
